import Mathlib

/-! Input expander firmware: register dispatch and sampling tick.

A shallow embedding of `Firmware/InputExpander/app.c`:

* `core_callback_reset_registers` (lines 135-143),
* `core_callback_t_before_exec` and `core_callback_t_new_second` (lines 195-267),
* `core_read_app_register` and `core_write_app_register` (lines 293-329).

The header `app_ios_and_regs.h` is not among the sources, so the constants it
defines are fields of `Consts`, and the tables of `app_funcs.c` are fields of
`Tables`. Machine integers are `Nat`/`Int` with explicit wrap-around.
-/

namespace InputExpander

/-! ## Constants and tables declared outside app.c -/

/-- Constants of `app_ios_and_regs.h` that `app.c` names; their values are not
in the sources, so they are parameters of every definition below. -/
structure Consts where
  APP_REGS_ADD_MIN : Nat
  APP_REGS_ADD_MAX : Nat
  ADD_REG_INPUTS : Nat
  ADD_REG_ENCODER : Nat
  B_AUX_IN0 : Nat
  B_AUX_IN1 : Nat
  GM_ENC_MODE : Nat
  MSK_ENC_1000Hz : Nat
  MSK_ENC_500Hz : Nat
  MSK_ENC_250Hz : Nat
  MSK_ENC_WHEN_CHANGE : Nat
  MSK_AT_2000FPS : Nat
  MSK_AT_1000FPS : Nat
  deriving DecidableEq

/-- Modelled from the spec: the macro `B_IN0` of the absent header; the spec
fixes "bit i = input line i, for i in [0,9]". -/
def B_IN0 : Nat := 1 <<< 0
/-- Modelled from the spec: the macro `B_IN1` of the absent header (bit 1). -/
def B_IN1 : Nat := 1 <<< 1
/-- Modelled from the spec: the macro `B_IN2` of the absent header (bit 2). -/
def B_IN2 : Nat := 1 <<< 2
/-- Modelled from the spec: the macro `B_IN3` of the absent header (bit 3). -/
def B_IN3 : Nat := 1 <<< 3
/-- Modelled from the spec: the macro `B_IN4` of the absent header (bit 4). -/
def B_IN4 : Nat := 1 <<< 4
/-- Modelled from the spec: the macro `B_IN5` of the absent header (bit 5). -/
def B_IN5 : Nat := 1 <<< 5
/-- Modelled from the spec: the macro `B_IN6` of the absent header (bit 6). -/
def B_IN6 : Nat := 1 <<< 6
/-- Modelled from the spec: the macro `B_IN7` of the absent header (bit 7). -/
def B_IN7 : Nat := 1 <<< 7
/-- Modelled from the spec: the macro `B_IN8` of the absent header (bit 8). -/
def B_IN8 : Nat := 1 <<< 8
/-- Modelled from the spec: the macro `B_IN9` of the absent header (bit 9). -/
def B_IN9 : Nat := 1 <<< 9

/-! ## Register bank and machine state -/

/-- The register bank `app_regs`. The fields are the registers `app.c` names;
`REG_INPUTS` is an array, of which `app.c` writes element 0 only, so element 0
and the remaining elements are separate fields. `others` stands for the
registers of the bank that `app.c` never names. `REG_ENCODER` holds a signed
16-bit value. -/
structure AppRegs where
  REG_INPUTS_0 : Nat
  REG_INPUTS_rest : List Nat
  REG_AUX_INPUTS_RISING_EDGE_ENABLE : Nat
  REG_AUX_INPUTS_FALLING_EDGE_ENABLE : Nat
  REG_RISING_EDGE_ENABLE : Nat
  REG_FALLING_EDGE_ENABLE : Nat
  REG_INPUT_MODE : Nat
  REG_EXPANSION_OPTIONS : Nat
  REG_ENCODER : Int
  REG_ENCODER_MODE : Nat
  others : List Nat
  deriving DecidableEq

/-- One call `core_func_send_event(add, flag)`. -/
structure Event where
  add : Nat
  flag : Bool
  deriving DecidableEq

/-- Global state touched by `app.c`: the bank, the static
`acquisition_counter` (uint16_t), the log of events handed to
`core_func_send_event`, and the visual outputs written by the tick. -/
structure State where
  app_regs : AppRegs
  acquisition_counter : Nat
  events : List Event
  PORTH_OUT : Nat
  LED_8 : Bool
  LED_9 : Bool
  deriving DecidableEq

/-- What the hardware presents during one tick: the 16-bit counter `TCE1_CNT`,
the ten input lines `read_IN0` .. `read_IN9`, and the answer of
`core_bool_is_visual_enabled()`. One counter sample is supplied per tick. -/
structure Hw where
  TCE1_CNT : Nat
  read_IN0 : Bool
  read_IN1 : Bool
  read_IN2 : Bool
  read_IN3 : Bool
  read_IN4 : Bool
  read_IN5 : Bool
  read_IN6 : Bool
  read_IN7 : Bool
  read_IN8 : Bool
  read_IN9 : Bool
  visual_enabled : Bool
  deriving DecidableEq

/-- Level of input line `i` (false for `i` above 9). -/
def Hw.read_IN (hw : Hw) (i : Nat) : Bool :=
  match i with
  | 0 => hw.read_IN0
  | 1 => hw.read_IN1
  | 2 => hw.read_IN2
  | 3 => hw.read_IN3
  | 4 => hw.read_IN4
  | 5 => hw.read_IN5
  | 6 => hw.read_IN6
  | 7 => hw.read_IN7
  | 8 => hw.read_IN8
  | 9 => hw.read_IN9
  | _ => false

/-- Conversion of an integer to `int16_t` (two's complement wrap-around). -/
def toInt16 (x : Int) : Int := (x + 32768) % 65536 - 32768

/-- The external `core_func_send_event(add, flag)`: the call is appended to the
event log. -/
def core_func_send_event (s : State) (add : Nat) (flag : Bool) : State :=
  { s with events := s.events ++ [⟨add, flag⟩] }

/-! ## Reset callback (app.c lines 135-143) -/

/-- Embedding of `core_callback_reset_registers`. -/
def core_callback_reset_registers (c : Consts) (s : State) : State :=
  let r := s.app_regs
  let r := { r with REG_AUX_INPUTS_RISING_EDGE_ENABLE := c.B_AUX_IN0 ||| c.B_AUX_IN1 }
  let r := { r with REG_AUX_INPUTS_FALLING_EDGE_ENABLE := c.B_AUX_IN0 ||| c.B_AUX_IN1 }
  let r := { r with REG_RISING_EDGE_ENABLE :=
    B_IN0 ||| B_IN1 ||| B_IN2 ||| B_IN3 ||| B_IN4 ||| B_IN5 ||| B_IN6 ||| B_IN7 ||| B_IN8 ||| B_IN9 }
  let r := { r with REG_FALLING_EDGE_ENABLE :=
    B_IN0 ||| B_IN1 ||| B_IN2 ||| B_IN3 ||| B_IN4 ||| B_IN5 ||| B_IN6 ||| B_IN7 ||| B_IN8 ||| B_IN9 }
  { s with app_regs := r }

/-! ## Timer callbacks (app.c lines 195-267) -/

/-- The local `int16_t timer_cnt = TCE1_CNT;` of lines 208 and 223. -/
def timer_cnt_of (raw : Nat) : Int := toInt16 (raw : Int)

/-- The arithmetic of lines 208-217 (fixed-rate path): the value assigned to
`REG_ENCODER` for the counter sample `raw`. -/
def fixed_rate_reading (raw : Nat) : Int :=
  let timer_cnt := timer_cnt_of raw
  if timer_cnt > 32768 then
    toInt16 (0xFFFF - timer_cnt)
  else
    toInt16 ((32768 - timer_cnt) * -1)

/-- The arithmetic of lines 223-237 (on-change path): the value of `timer_cnt`
after the transform, for the counter sample `raw`. -/
def on_change_reading (raw : Nat) : Int :=
  let timer_cnt := timer_cnt_of raw
  if timer_cnt > 32768 then
    toInt16 (0xFFFF - timer_cnt)
  else
    toInt16 ((32768 - timer_cnt) * -1)

/-- Lines 208-218: the body run on a tick selected by a fixed-rate mode. -/
def encoder_fixed_rate (c : Consts) (hw : Hw) (s : State) : State :=
  let timer_cnt := timer_cnt_of hw.TCE1_CNT
  let s :=
    if timer_cnt > 32768 then
      { s with app_regs := { s.app_regs with REG_ENCODER := toInt16 (0xFFFF - timer_cnt) } }
    else
      { s with app_regs := { s.app_regs with REG_ENCODER := toInt16 ((32768 - timer_cnt) * -1) } }
  core_func_send_event s c.ADD_REG_ENCODER true

/-- Lines 223-244: the body run on a tick selected by the on-change mode. -/
def encoder_on_change (c : Consts) (hw : Hw) (s : State) : State :=
  let timer_cnt := timer_cnt_of hw.TCE1_CNT
  if timer_cnt > 32768 then
    let timer_cnt := toInt16 (0xFFFF - timer_cnt)
    if timer_cnt ≠ s.app_regs.REG_ENCODER then
      let s := { s with app_regs := { s.app_regs with REG_ENCODER := timer_cnt } }
      core_func_send_event s c.ADD_REG_ENCODER true
    else
      s
  else
    let timer_cnt := toInt16 ((32768 - timer_cnt) * -1)
    if timer_cnt ≠ s.app_regs.REG_ENCODER then
      let s := { s with app_regs := { s.app_regs with REG_ENCODER := timer_cnt } }
      core_func_send_event s c.ADD_REG_ENCODER true
    else
      s

/-- The rate gate of lines 203-205. -/
def fixed_rate_gate (c : Consts) (s : State) : Bool :=
  (s.app_regs.REG_ENCODER_MODE == c.MSK_ENC_1000Hz && (s.acquisition_counter &&& 1) == 0) ||
  (s.app_regs.REG_ENCODER_MODE == c.MSK_ENC_500Hz && (s.acquisition_counter &&& 3) == 0) ||
  (s.app_regs.REG_ENCODER_MODE == c.MSK_ENC_250Hz && (s.acquisition_counter &&& 7) == 0)

/-- The gate of line 221. -/
def on_change_gate (c : Consts) (s : State) : Bool :=
  s.app_regs.REG_ENCODER_MODE == c.MSK_ENC_WHEN_CHANGE && (s.acquisition_counter &&& 1) == 0

/-- The gate of line 248. -/
def inputs_gate (c : Consts) (s : State) : Bool :=
  (s.app_regs.REG_INPUT_MODE == c.MSK_AT_2000FPS) ||
  (s.app_regs.REG_INPUT_MODE == c.MSK_AT_1000FPS && (s.acquisition_counter &&& 1) == 0)

/-- Lines 250-251: the value left in `REG_INPUTS[0]` by the assignment followed
by the or-assignment. -/
def pack_inputs (hw : Hw) : Nat :=
  let v := (if hw.read_IN0 then B_IN0 else 0) ||| (if hw.read_IN1 then B_IN1 else 0) |||
    (if hw.read_IN2 then B_IN2 else 0) ||| (if hw.read_IN3 then B_IN3 else 0) |||
    (if hw.read_IN4 then B_IN4 else 0)
  v ||| ((if hw.read_IN5 then B_IN5 else 0) ||| (if hw.read_IN6 then B_IN6 else 0) |||
    (if hw.read_IN7 then B_IN7 else 0) ||| (if hw.read_IN8 then B_IN8 else 0) |||
    (if hw.read_IN9 then B_IN9 else 0))

/-- Lines 250-260: the body run on a tick on which the inputs are sampled. -/
def inputs_sample (c : Consts) (hw : Hw) (s : State) : State :=
  let s := { s with app_regs := { s.app_regs with REG_INPUTS_0 := pack_inputs hw } }
  let s := core_func_send_event s c.ADD_REG_INPUTS true
  if hw.visual_enabled then
    { s with
      PORTH_OUT := s.app_regs.REG_INPUTS_0 % 256
      LED_8 := decide (s.app_regs.REG_INPUTS_0 &&& B_IN8 ≠ 0)
      LED_9 := decide (s.app_regs.REG_INPUTS_0 &&& B_IN9 ≠ 0) }
  else
    s

/-- Lines 201-246: the encoder part of the tick, run after the counter was
incremented. -/
def encoder_part (c : Consts) (hw : Hw) (s : State) : State :=
  if s.app_regs.REG_ENCODER_MODE &&& c.GM_ENC_MODE ≠ 0 then
    let s := if fixed_rate_gate c s then encoder_fixed_rate c hw s else s
    if on_change_gate c s then encoder_on_change c hw s else s
  else
    s

/-- Line 199: `acquisition_counter++` on a uint16_t. -/
def incr_counter (s : State) : State :=
  { s with acquisition_counter := (s.acquisition_counter + 1) % 65536 }

/-- Embedding of `core_callback_t_before_exec` (lines 197-262). -/
def core_callback_t_before_exec (c : Consts) (hw : Hw) (s : State) : State :=
  let s := incr_counter s
  let s := encoder_part c hw s
  if inputs_gate c s then inputs_sample c hw s else s

/-- Embedding of `core_callback_t_new_second` (lines 264-267). -/
def core_callback_t_new_second (s : State) : State :=
  { s with acquisition_counter := 0 }

/-- Successive calls of `core_callback_t_before_exec`, one per element of
`hws`, oldest first. -/
def run_ticks (c : Consts) (hws : List Hw) (s : State) : State :=
  hws.foldl (fun st hw => core_callback_t_before_exec c hw st) s

/-- Events appended to the log between the states `before` and `after`. -/
def emitted (before after : State) : List Event :=
  after.events.drop before.events.length

/-- Number of events for register address `add` in `es`. -/
def count_events (add : Nat) (es : List Event) : Nat :=
  es.countP (fun e => e.add == add)

/-! ## Register dispatch (app.c lines 293-329) -/

/-- The tables of `app_funcs.c` that the dispatch indexes with
`add - APP_REGS_ADD_MIN`. A read handler is `void f(void)` and a write handler
is `bool f(void*)`; both act on the global state. -/
structure Tables where
  app_regs_type : List Nat
  app_regs_n_elements : List Nat
  app_func_rd_pointer : List (State → State)
  app_func_wr_pointer : List (List Nat → State → Bool × State)

/-- The tables hold one entry per address of the application range, as
announced to `core_func_start_core` (line 44). -/
def Tables.Sized (t : Tables) (c : Consts) : Prop :=
  t.app_regs_type.length = c.APP_REGS_ADD_MAX - c.APP_REGS_ADD_MIN + 1 ∧
  t.app_regs_n_elements.length = c.APP_REGS_ADD_MAX - c.APP_REGS_ADD_MIN + 1 ∧
  t.app_func_rd_pointer.length = c.APP_REGS_ADD_MAX - c.APP_REGS_ADD_MIN + 1 ∧
  t.app_func_wr_pointer.length = c.APP_REGS_ADD_MAX - c.APP_REGS_ADD_MIN + 1

instance Tables.decidableSized (t : Tables) (c : Consts) : Decidable (t.Sized c) := by
  unfold Tables.Sized
  infer_instance

/-- A handler call made by the dispatch: the table index used and, for a
write, the payload passed. -/
inductive Call where
  | rd (index : Nat)
  | wr (index : Nat) (content : List Nat)
  deriving DecidableEq

/-- Result of a dispatch call: the returned boolean, the state left behind and
the handler calls made, in order. -/
structure Outcome where
  ret : Bool
  state : State
  calls : List Call
  deriving DecidableEq

/-- Embedding of `core_read_app_register`. `none` stands for an access past
the end of a table. -/
def core_read_app_register (c : Consts) (t : Tables) (add type : Nat) (s : State) :
    Option Outcome :=
  if add < c.APP_REGS_ADD_MIN ∨ add > c.APP_REGS_ADD_MAX then
    some ⟨false, s, []⟩
  else
    match t.app_regs_type[add - c.APP_REGS_ADD_MIN]? with
    | none => none
    | some ty =>
      if ty ≠ type then
        some ⟨false, s, []⟩
      else
        match t.app_func_rd_pointer[add - c.APP_REGS_ADD_MIN]? with
        | none => none
        | some f => some ⟨true, f s, [Call.rd (add - c.APP_REGS_ADD_MIN)]⟩

/-- Embedding of `core_write_app_register`. `none` stands for an access past
the end of a table. -/
def core_write_app_register (c : Consts) (t : Tables) (add type : Nat) (content : List Nat)
    (n_elements : Nat) (s : State) : Option Outcome :=
  if add < c.APP_REGS_ADD_MIN ∨ add > c.APP_REGS_ADD_MAX then
    some ⟨false, s, []⟩
  else
    match t.app_regs_type[add - c.APP_REGS_ADD_MIN]? with
    | none => none
    | some ty =>
      if ty ≠ type then
        some ⟨false, s, []⟩
      else
        match t.app_regs_n_elements[add - c.APP_REGS_ADD_MIN]? with
        | none => none
        | some n =>
          if n ≠ n_elements then
            some ⟨false, s, []⟩
          else
            match t.app_func_wr_pointer[add - c.APP_REGS_ADD_MIN]? with
            | none => none
            | some f =>
              some ⟨(f content s).1, (f content s).2, [Call.wr (add - c.APP_REGS_ADD_MIN) content]⟩

/-! ## A concrete configuration -/

/-- A concrete assignment of the header constants, used to evaluate the
definitions: application registers at addresses 32 .. 46, the encoder mode
group in the low three bits, and pairwise distinct mode values. -/
def sampleConsts : Consts where
  APP_REGS_ADD_MIN := 32
  APP_REGS_ADD_MAX := 46
  ADD_REG_INPUTS := 33
  ADD_REG_ENCODER := 44
  B_AUX_IN0 := 1
  B_AUX_IN1 := 2
  GM_ENC_MODE := 7
  MSK_ENC_1000Hz := 3
  MSK_ENC_500Hz := 2
  MSK_ENC_250Hz := 1
  MSK_ENC_WHEN_CHANGE := 4
  MSK_AT_2000FPS := 1
  MSK_AT_1000FPS := 2

/-- A register bank with every register cleared. -/
def zeroRegs : AppRegs where
  REG_INPUTS_0 := 0
  REG_INPUTS_rest := [0]
  REG_AUX_INPUTS_RISING_EDGE_ENABLE := 0
  REG_AUX_INPUTS_FALLING_EDGE_ENABLE := 0
  REG_RISING_EDGE_ENABLE := 0
  REG_FALLING_EDGE_ENABLE := 0
  REG_INPUT_MODE := 0
  REG_EXPANSION_OPTIONS := 0
  REG_ENCODER := 0
  REG_ENCODER_MODE := 0
  others := []

/-- The state with a cleared bank, counter 0, an empty event log and the
visual outputs off. -/
def zeroState : State where
  app_regs := zeroRegs
  acquisition_counter := 0
  events := []
  PORTH_OUT := 0
  LED_8 := false
  LED_9 := false

/-- Hardware with all ten lines deasserted, the given counter sample and the
visual indicators disabled. -/
def idleHw (raw : Nat) : Hw where
  TCE1_CNT := raw
  read_IN0 := false
  read_IN1 := false
  read_IN2 := false
  read_IN3 := false
  read_IN4 := false
  read_IN5 := false
  read_IN6 := false
  read_IN7 := false
  read_IN8 := false
  read_IN9 := false
  visual_enabled := false

/-- The cleared state with the two mode registers, the counter and the stored
encoder value set as given. -/
def modeState (encMode inMode counter : Nat) (enc : Int) : State :=
  { zeroState with
    app_regs := { zeroRegs with
      REG_ENCODER_MODE := encMode, REG_INPUT_MODE := inMode, REG_ENCODER := enc }
    acquisition_counter := counter }

/-- Hardware with exactly the lines IN0 and IN9 asserted. -/
def in0in9Hw : Hw :=
  { idleHw 0 with read_IN0 := true, read_IN9 := true }

/-- A read handler that leaves a mark in `PORTH_OUT`, so that a call is
visible in the state. -/
def markRead (k : Nat) (s : State) : State :=
  { s with PORTH_OUT := k }

/-- A write handler that accepts payloads starting with a value below 4 and
stores that value in `REG_INPUT_MODE`. -/
def storeInputMode (content : List Nat) (s : State) : Bool × State :=
  if content.headD 0 < 4 then
    (true, { s with app_regs := { s.app_regs with REG_INPUT_MODE := content.headD 0 } })
  else
    (false, s)

/-- Tables for the fifteen addresses 32 .. 46 of `sampleConsts`: register `i`
has type tag `i % 3 + 1` and one element. -/
def sampleTables : Tables where
  app_regs_type := (List.range 15).map (fun i => i % 3 + 1)
  app_regs_n_elements := List.replicate 15 1
  app_func_rd_pointer := (List.range 15).map markRead
  app_func_wr_pointer := List.replicate 15 storeInputMode

/-! ## Arithmetic of the 16-bit conversions -/

theorem toInt16_range (x : Int) : -32768 ≤ toInt16 x ∧ toInt16 x ≤ 32767 := by
  unfold toInt16
  omega

theorem toInt16_of_range (x : Int) (h₁ : -32768 ≤ x) (h₂ : x ≤ 32767) : toInt16 x = x := by
  unfold toInt16
  omega

theorem timer_cnt_of_not_gt (raw : Nat) : ¬ (timer_cnt_of raw > 32768) := by
  have h := (toInt16_range (raw : Int)).2
  unfold timer_cnt_of
  omega

theorem fixed_rate_reading_eq (raw : Nat) (h : raw < 65536) :
    fixed_rate_reading raw = (raw : Int) - 32768 := by
  simp only [fixed_rate_reading, if_neg (timer_cnt_of_not_gt raw)]
  unfold timer_cnt_of toInt16
  omega

theorem on_change_reading_eq (raw : Nat) (h : raw < 65536) :
    on_change_reading raw = (raw : Int) - 32768 := by
  simp only [on_change_reading, if_neg (timer_cnt_of_not_gt raw)]
  unfold timer_cnt_of toInt16
  omega

theorem xor_top_bit (raw : Nat) (h : raw < 65536) :
    raw ^^^ 0x8000 = if raw < 32768 then raw + 32768 else raw - 32768 := by
  apply Nat.eq_of_testBit_eq
  intro i
  rw [Nat.testBit_xor]
  have h15 : (0x8000 : Nat) = 2 ^ 15 := by norm_num
  rw [h15, Nat.testBit_two_pow]
  split_ifs with hlt
  · rw [Nat.add_comm]
    rcases Nat.lt_trichotomy i 15 with hi | hi | hi
    · rw [Nat.testBit_two_pow_add_gt hi]
      have : ¬ (15 = i) := by omega
      simp [this]
    · subst hi
      rw [Nat.testBit_two_pow_add_eq]
      have : raw.testBit 15 = false := Nat.testBit_lt_two_pow (by norm_num; omega)
      simp [this]
    · have hp : (2:Nat) ^ 16 ≤ 2 ^ i := Nat.pow_le_pow_right (by norm_num) hi
      have e1 : raw.testBit i = false := Nat.testBit_lt_two_pow (by norm_num at hp ⊢; omega)
      have e2 : (32768 + raw).testBit i = false :=
        Nat.testBit_lt_two_pow (by norm_num at hp ⊢; omega)
      have : ¬ (15 = i) := by omega
      simp [e1, e2, this]
  · obtain ⟨l, rfl⟩ : ∃ l, raw = 2 ^ 15 + l := ⟨raw - 32768, by norm_num; omega⟩
    have hl : l < 2 ^ 15 := by norm_num at h ⊢; omega
    rw [Nat.add_sub_cancel_left]
    rcases Nat.lt_trichotomy i 15 with hi | hi | hi
    · rw [Nat.testBit_two_pow_add_gt hi]
      have : ¬ (15 = i) := by omega
      simp [this]
    · subst hi
      rw [Nat.testBit_two_pow_add_eq]
      have : l.testBit 15 = false := Nat.testBit_lt_two_pow hl
      simp [this]
    · have hp : (2:Nat) ^ 16 ≤ 2 ^ i := Nat.pow_le_pow_right (by norm_num) hi
      have e1 : l.testBit i = false := Nat.testBit_lt_two_pow (by norm_num at hp hl ⊢; omega)
      have e2 : (32768 + l).testBit i = false :=
        Nat.testBit_lt_two_pow (by norm_num at hp hl ⊢; omega)
      have : ¬ (15 = i) := by omega
      simp [e1, e2, this]

/-! ## Frame and event lemmas for the tick -/

theorem emitted_of_append (s s' : State) (l : List Event) (h : s'.events = s.events ++ l) :
    emitted s s' = l := by
  simp [emitted, h]

/-- The fixed-rate body stores `fixed_rate_reading` and sends one event. -/
theorem encoder_fixed_rate_eq (c : Consts) (hw : Hw) (s : State) :
    encoder_fixed_rate c hw s = core_func_send_event
      { s with app_regs := { s.app_regs with REG_ENCODER := fixed_rate_reading hw.TCE1_CNT } }
      c.ADD_REG_ENCODER true := by
  simp only [encoder_fixed_rate, fixed_rate_reading]
  by_cases h : timer_cnt_of hw.TCE1_CNT > 32768
  · rw [if_pos h, if_pos h]
  · rw [if_neg h, if_neg h]

theorem encoder_fixed_rate_events (c : Consts) (hw : Hw) (s : State) :
    (encoder_fixed_rate c hw s).events = s.events ++ [⟨c.ADD_REG_ENCODER, true⟩] := by
  rw [encoder_fixed_rate_eq]
  simp only [core_func_send_event]

theorem encoder_fixed_rate_regs (c : Consts) (hw : Hw) (s : State) :
    (encoder_fixed_rate c hw s).app_regs =
      { s.app_regs with REG_ENCODER := fixed_rate_reading hw.TCE1_CNT } := by
  rw [encoder_fixed_rate_eq]
  simp only [core_func_send_event]

theorem encoder_fixed_rate_value (c : Consts) (hw : Hw) (s : State) :
    (encoder_fixed_rate c hw s).app_regs.REG_ENCODER = fixed_rate_reading hw.TCE1_CNT := by
  rw [encoder_fixed_rate_eq]
  simp only [core_func_send_event]

theorem encoder_fixed_rate_counter (c : Consts) (hw : Hw) (s : State) :
    (encoder_fixed_rate c hw s).acquisition_counter = s.acquisition_counter := by
  rw [encoder_fixed_rate_eq]
  simp only [core_func_send_event]

/-- Both branches of the on-change body end in the same comparison of the
transformed `timer_cnt` with `REG_ENCODER`. -/
theorem encoder_on_change_eq (c : Consts) (hw : Hw) (s : State) :
    encoder_on_change c hw s =
      if on_change_reading hw.TCE1_CNT ≠ s.app_regs.REG_ENCODER then
        core_func_send_event
          { s with app_regs := { s.app_regs with REG_ENCODER := on_change_reading hw.TCE1_CNT } }
          c.ADD_REG_ENCODER true
      else s := by
  simp only [encoder_on_change, on_change_reading]
  by_cases h : timer_cnt_of hw.TCE1_CNT > 32768
  · rw [if_pos h, if_pos h]
  · rw [if_neg h, if_neg h]

theorem encoder_on_change_pos (c : Consts) (hw : Hw) (s : State)
    (h : on_change_reading hw.TCE1_CNT ≠ s.app_regs.REG_ENCODER) :
    encoder_on_change c hw s = core_func_send_event
      { s with app_regs := { s.app_regs with REG_ENCODER := on_change_reading hw.TCE1_CNT } }
      c.ADD_REG_ENCODER true := by
  rw [encoder_on_change_eq, if_pos h]

theorem encoder_on_change_neg (c : Consts) (hw : Hw) (s : State)
    (h : on_change_reading hw.TCE1_CNT = s.app_regs.REG_ENCODER) :
    encoder_on_change c hw s = s := by
  rw [encoder_on_change_eq, if_neg (not_not.mpr h)]

theorem encoder_on_change_events (c : Consts) (hw : Hw) (s : State) :
    (encoder_on_change c hw s).events = s.events ++
      (if on_change_reading hw.TCE1_CNT ≠ s.app_regs.REG_ENCODER
        then [⟨c.ADD_REG_ENCODER, true⟩] else []) := by
  by_cases h : on_change_reading hw.TCE1_CNT = s.app_regs.REG_ENCODER
  · rw [encoder_on_change_neg c hw s h, if_neg (not_not.mpr h), List.append_nil]
  · rw [encoder_on_change_pos c hw s h, if_pos h]
    simp only [core_func_send_event]

theorem encoder_on_change_value (c : Consts) (hw : Hw) (s : State) :
    (encoder_on_change c hw s).app_regs.REG_ENCODER = on_change_reading hw.TCE1_CNT := by
  by_cases h : on_change_reading hw.TCE1_CNT = s.app_regs.REG_ENCODER
  · rw [encoder_on_change_neg c hw s h, h]
  · rw [encoder_on_change_pos c hw s h]
    simp only [core_func_send_event]

theorem encoder_fixed_rate_frame (c : Consts) (hw : Hw) (s : State) :
    (encoder_fixed_rate c hw s).acquisition_counter = s.acquisition_counter ∧
    (encoder_fixed_rate c hw s).app_regs.REG_INPUT_MODE = s.app_regs.REG_INPUT_MODE ∧
    (encoder_fixed_rate c hw s).app_regs.REG_ENCODER_MODE = s.app_regs.REG_ENCODER_MODE ∧
    (encoder_fixed_rate c hw s).app_regs.REG_INPUTS_0 = s.app_regs.REG_INPUTS_0 ∧
    (encoder_fixed_rate c hw s).app_regs.REG_INPUTS_rest = s.app_regs.REG_INPUTS_rest := by
  rw [encoder_fixed_rate_eq]
  simp only [core_func_send_event, and_self]

theorem encoder_on_change_frame (c : Consts) (hw : Hw) (s : State) :
    (encoder_on_change c hw s).acquisition_counter = s.acquisition_counter ∧
    (encoder_on_change c hw s).app_regs.REG_INPUT_MODE = s.app_regs.REG_INPUT_MODE ∧
    (encoder_on_change c hw s).app_regs.REG_ENCODER_MODE = s.app_regs.REG_ENCODER_MODE ∧
    (encoder_on_change c hw s).app_regs.REG_INPUTS_0 = s.app_regs.REG_INPUTS_0 ∧
    (encoder_on_change c hw s).app_regs.REG_INPUTS_rest = s.app_regs.REG_INPUTS_rest := by
  by_cases h : on_change_reading hw.TCE1_CNT = s.app_regs.REG_ENCODER
  · rw [encoder_on_change_neg c hw s h]
    simp only [and_self]
  · rw [encoder_on_change_pos c hw s h]
    simp only [core_func_send_event, and_self]

/-- The encoder part written out by case on the enable test and the two gates. -/
theorem encoder_part_eq (c : Consts) (hw : Hw) (s : State) :
    encoder_part c hw s =
      if s.app_regs.REG_ENCODER_MODE &&& c.GM_ENC_MODE ≠ 0 then
        if fixed_rate_gate c s then
          if on_change_gate c s then encoder_on_change c hw (encoder_fixed_rate c hw s)
          else encoder_fixed_rate c hw s
        else
          if on_change_gate c s then encoder_on_change c hw s else s
      else s := by
  simp only [encoder_part]
  have hg : on_change_gate c (encoder_fixed_rate c hw s) = on_change_gate c s := by
    rw [encoder_fixed_rate_eq]
    simp only [on_change_gate, core_func_send_event]
  by_cases h1 : s.app_regs.REG_ENCODER_MODE &&& c.GM_ENC_MODE ≠ 0
  · rw [if_pos h1, if_pos h1]
    by_cases h2 : fixed_rate_gate c s = true
    · rw [if_pos h2, if_pos h2, hg]
    · rw [if_neg h2, if_neg h2]
  · rw [if_neg h1, if_neg h1]

theorem encoder_part_frame (c : Consts) (hw : Hw) (s : State) :
    (encoder_part c hw s).acquisition_counter = s.acquisition_counter ∧
    (encoder_part c hw s).app_regs.REG_INPUT_MODE = s.app_regs.REG_INPUT_MODE ∧
    (encoder_part c hw s).app_regs.REG_ENCODER_MODE = s.app_regs.REG_ENCODER_MODE ∧
    (encoder_part c hw s).app_regs.REG_INPUTS_0 = s.app_regs.REG_INPUTS_0 ∧
    (encoder_part c hw s).app_regs.REG_INPUTS_rest = s.app_regs.REG_INPUTS_rest := by
  rw [encoder_part_eq]
  have hf := encoder_fixed_rate_frame c hw s
  split_ifs
  · obtain ⟨a1, a2, a3, a4, a5⟩ := encoder_on_change_frame c hw (encoder_fixed_rate c hw s)
    obtain ⟨b1, b2, b3, b4, b5⟩ := hf
    exact ⟨a1.trans b1, a2.trans b2, a3.trans b3, a4.trans b4, a5.trans b5⟩
  · exact hf
  · exact encoder_on_change_frame c hw s
  · simp only [and_self]
  · simp only [and_self]

theorem inputs_gate_encoder_part (c : Consts) (hw : Hw) (s : State) :
    inputs_gate c (encoder_part c hw s) = inputs_gate c s := by
  obtain ⟨h1, h2, -⟩ := encoder_part_frame c hw s
  simp only [inputs_gate, h1, h2]

theorem inputs_sample_spec (c : Consts) (hw : Hw) (s : State) :
    (inputs_sample c hw s).events = s.events ++ [⟨c.ADD_REG_INPUTS, true⟩] ∧
    (inputs_sample c hw s).app_regs = { s.app_regs with REG_INPUTS_0 := pack_inputs hw } ∧
    (inputs_sample c hw s).acquisition_counter = s.acquisition_counter := by
  simp only [inputs_sample]
  split_ifs
  · simp only [core_func_send_event, and_self]
  · simp only [core_func_send_event, and_self]

theorem tick_eq (c : Consts) (hw : Hw) (s : State) :
    core_callback_t_before_exec c hw s =
      if inputs_gate c (incr_counter s) then
        inputs_sample c hw (encoder_part c hw (incr_counter s))
      else
        encoder_part c hw (incr_counter s) := by
  simp only [core_callback_t_before_exec, inputs_gate_encoder_part]

theorem incr_counter_frame (s : State) :
    (incr_counter s).acquisition_counter = (s.acquisition_counter + 1) % 65536 ∧
    (incr_counter s).app_regs = s.app_regs ∧ (incr_counter s).events = s.events := by
  simp only [incr_counter, and_self]

theorem tick_frame (c : Consts) (hw : Hw) (s : State) :
    (core_callback_t_before_exec c hw s).acquisition_counter = (s.acquisition_counter + 1) % 65536 ∧
    (core_callback_t_before_exec c hw s).app_regs.REG_INPUT_MODE = s.app_regs.REG_INPUT_MODE ∧
    (core_callback_t_before_exec c hw s).app_regs.REG_ENCODER_MODE = s.app_regs.REG_ENCODER_MODE := by
  rw [tick_eq]
  obtain ⟨h1, h2, h3, -⟩ := encoder_part_frame c hw (incr_counter s)
  obtain ⟨i1, i2, -⟩ := incr_counter_frame s
  rw [i1] at h1
  rw [i2] at h2 h3
  split_ifs
  · obtain ⟨-, e2, e3⟩ := inputs_sample_spec c hw (encoder_part c hw (incr_counter s))
    rw [e2, e3]
    exact ⟨h1, h2, h3⟩
  · exact ⟨h1, h2, h3⟩

/-- Registers written by a tick: `REG_INPUTS[0]` is the packed lines when the
input gate is open and untouched otherwise, the other elements of `REG_INPUTS`
are untouched, and `REG_ENCODER` is what the encoder part left. -/
theorem tick_regs (c : Consts) (hw : Hw) (s : State) :
    (core_callback_t_before_exec c hw s).app_regs.REG_INPUTS_0 =
      (if inputs_gate c (incr_counter s) then pack_inputs hw else s.app_regs.REG_INPUTS_0) ∧
    (core_callback_t_before_exec c hw s).app_regs.REG_INPUTS_rest = s.app_regs.REG_INPUTS_rest ∧
    (core_callback_t_before_exec c hw s).app_regs.REG_ENCODER =
      (encoder_part c hw (incr_counter s)).app_regs.REG_ENCODER := by
  rw [tick_eq]
  obtain ⟨-, -, -, h4, h5⟩ := encoder_part_frame c hw (incr_counter s)
  obtain ⟨-, i2, -⟩ := incr_counter_frame s
  rw [i2] at h4 h5
  split_ifs
  · obtain ⟨-, e2, -⟩ := inputs_sample_spec c hw (encoder_part c hw (incr_counter s))
    rw [e2]
    simp only [h5, and_self]
  · exact ⟨h4, h5, Eq.refl _⟩

/-- Events appended by the encoder part: all carry the encoder address. -/
theorem encoder_part_events (c : Consts) (hw : Hw) (s : State) :
    ∃ l : List Event, (encoder_part c hw s).events = s.events ++ l ∧
      ∀ e ∈ l, e = ⟨c.ADD_REG_ENCODER, true⟩ := by
  rw [encoder_part_eq]
  split_ifs with h1 h2 h3 h3
  · refine ⟨[⟨c.ADD_REG_ENCODER, true⟩] ++
      (if on_change_reading hw.TCE1_CNT ≠ (encoder_fixed_rate c hw s).app_regs.REG_ENCODER
        then [⟨c.ADD_REG_ENCODER, true⟩] else []), ?_, ?_⟩
    · rw [encoder_on_change_events, encoder_fixed_rate_events, List.append_assoc]
    · intro e he
      split_ifs at he <;> simp at he <;> exact he
  · exact ⟨[⟨c.ADD_REG_ENCODER, true⟩], encoder_fixed_rate_events c hw s, by simp⟩
  · refine ⟨_, encoder_on_change_events c hw s, ?_⟩
    intro e he
    split_ifs at he <;> simp at he
    exact he
  · exact ⟨[], by simp, by simp⟩
  · exact ⟨[], by simp, by simp⟩

/-- Events of one tick: those of the encoder part, then one input event when
the input gate is open. -/
theorem tick_emitted (c : Consts) (hw : Hw) (s : State) :
    emitted s (core_callback_t_before_exec c hw s) =
      emitted (incr_counter s) (encoder_part c hw (incr_counter s)) ++
        (if inputs_gate c (incr_counter s) then [⟨c.ADD_REG_INPUTS, true⟩] else []) := by
  obtain ⟨l, hl, -⟩ := encoder_part_events c hw (incr_counter s)
  have hi : (incr_counter s).events = s.events := (incr_counter_frame s).2.2
  rw [emitted_of_append _ _ l hl]
  rw [hi] at hl
  rw [tick_eq]
  split_ifs
  · apply emitted_of_append
    rw [(inputs_sample_spec c hw _).1, hl, List.append_assoc]
  · apply emitted_of_append
    rw [hl, List.append_nil]

theorem tick_count_inputs (c : Consts) (hw : Hw) (s : State)
    (hadd : c.ADD_REG_ENCODER ≠ c.ADD_REG_INPUTS) :
    count_events c.ADD_REG_INPUTS (emitted s (core_callback_t_before_exec c hw s)) =
      if inputs_gate c (incr_counter s) then 1 else 0 := by
  obtain ⟨l, hl, hall⟩ := encoder_part_events c hw (incr_counter s)
  rw [tick_emitted, emitted_of_append _ _ l hl]
  have h0 : count_events c.ADD_REG_INPUTS l = 0 := by
    unfold count_events
    rw [List.countP_eq_zero]
    intro e he
    rw [hall e he]
    simpa using hadd
  unfold count_events at h0 ⊢
  rw [List.countP_append, h0]
  split_ifs <;> simp

theorem tick_count_encoder (c : Consts) (hw : Hw) (s : State)
    (hadd : c.ADD_REG_ENCODER ≠ c.ADD_REG_INPUTS) :
    count_events c.ADD_REG_ENCODER (emitted s (core_callback_t_before_exec c hw s)) =
      count_events c.ADD_REG_ENCODER
        (emitted (incr_counter s) (encoder_part c hw (incr_counter s))) := by
  rw [tick_emitted]
  unfold count_events
  rw [List.countP_append]
  split_ifs <;> simp [Ne.symm hadd]

/-! ## The gates as arithmetic conditions -/

theorem and_three_eq_mod (x : Nat) : x &&& 3 = x % 4 :=
  Nat.and_pow_two_sub_one_eq_mod x 2

theorem and_seven_eq_mod (x : Nat) : x &&& 7 = x % 8 :=
  Nat.and_pow_two_sub_one_eq_mod x 3

theorem fixed_rate_gate_iff (c : Consts) (s : State) :
    fixed_rate_gate c s = true ↔
      (s.app_regs.REG_ENCODER_MODE = c.MSK_ENC_1000Hz ∧ s.acquisition_counter % 2 = 0) ∨
      (s.app_regs.REG_ENCODER_MODE = c.MSK_ENC_500Hz ∧ s.acquisition_counter % 4 = 0) ∨
      (s.app_regs.REG_ENCODER_MODE = c.MSK_ENC_250Hz ∧ s.acquisition_counter % 8 = 0) := by
  simp only [fixed_rate_gate, Bool.or_eq_true, Bool.and_eq_true, beq_iff_eq,
    Nat.and_one_is_mod, and_three_eq_mod, and_seven_eq_mod, or_assoc]

theorem on_change_gate_iff (c : Consts) (s : State) :
    on_change_gate c s = true ↔
      s.app_regs.REG_ENCODER_MODE = c.MSK_ENC_WHEN_CHANGE ∧ s.acquisition_counter % 2 = 0 := by
  simp only [on_change_gate, Bool.and_eq_true, beq_iff_eq, Nat.and_one_is_mod]

theorem inputs_gate_iff (c : Consts) (s : State) :
    inputs_gate c s = true ↔
      s.app_regs.REG_INPUT_MODE = c.MSK_AT_2000FPS ∨
      (s.app_regs.REG_INPUT_MODE = c.MSK_AT_1000FPS ∧ s.acquisition_counter % 2 = 0) := by
  simp only [inputs_gate, Bool.or_eq_true, Bool.and_eq_true, beq_iff_eq, Nat.and_one_is_mod]

/-! ## The encoder part by mode -/

theorem encoder_part_fixed (c : Consts) (hw : Hw) (s : State)
    (hen : s.app_regs.REG_ENCODER_MODE &&& c.GM_ENC_MODE ≠ 0)
    (hnc : s.app_regs.REG_ENCODER_MODE ≠ c.MSK_ENC_WHEN_CHANGE) :
    encoder_part c hw s = if fixed_rate_gate c s then encoder_fixed_rate c hw s else s := by
  have hg : ¬ (on_change_gate c s = true) := by
    rw [on_change_gate_iff]
    exact fun h => hnc h.1
  rw [encoder_part_eq, if_pos hen, if_neg hg, if_neg hg]

theorem encoder_part_on_change (c : Consts) (hw : Hw) (s : State)
    (hen : s.app_regs.REG_ENCODER_MODE &&& c.GM_ENC_MODE ≠ 0)
    (hmode : s.app_regs.REG_ENCODER_MODE = c.MSK_ENC_WHEN_CHANGE)
    (h1 : c.MSK_ENC_WHEN_CHANGE ≠ c.MSK_ENC_1000Hz)
    (h2 : c.MSK_ENC_WHEN_CHANGE ≠ c.MSK_ENC_500Hz)
    (h3 : c.MSK_ENC_WHEN_CHANGE ≠ c.MSK_ENC_250Hz) :
    encoder_part c hw s =
      if s.acquisition_counter % 2 = 0 then encoder_on_change c hw s else s := by
  have hg : ¬ (fixed_rate_gate c s = true) := by
    rw [fixed_rate_gate_iff, hmode]
    rintro (h | h | h)
    · exact h1 h.1
    · exact h2 h.1
    · exact h3 h.1
  rw [encoder_part_eq, if_pos hen, if_neg hg]
  by_cases hc : s.acquisition_counter % 2 = 0
  · rw [if_pos ((on_change_gate_iff c s).mpr ⟨hmode, hc⟩), if_pos hc]
  · rw [if_neg (fun h => hc ((on_change_gate_iff c s).mp h).2), if_neg hc]

theorem count_encoder_fixed_rate (c : Consts) (hw : Hw) (s : State) :
    count_events c.ADD_REG_ENCODER (emitted s (encoder_fixed_rate c hw s)) = 1 := by
  rw [emitted_of_append _ _ _ (encoder_fixed_rate_events c hw s)]
  simp [count_events]

theorem count_encoder_on_change (c : Consts) (hw : Hw) (s : State) :
    count_events c.ADD_REG_ENCODER (emitted s (encoder_on_change c hw s)) =
      if on_change_reading hw.TCE1_CNT ≠ s.app_regs.REG_ENCODER then 1 else 0 := by
  rw [emitted_of_append _ _ _ (encoder_on_change_events c hw s)]
  split_ifs <;> simp [count_events]

theorem count_events_self (add : Nat) (s : State) : count_events add (emitted s s) = 0 := by
  simp [count_events, emitted]

/-! ## Runs of ticks after the new-second callback -/

theorem run_ticks_counter (c : Consts) (hws : List Hw) (s : State)
    (h : s.acquisition_counter < 65536) :
    (run_ticks c hws s).acquisition_counter = (s.acquisition_counter + hws.length) % 65536 := by
  induction hws generalizing s with
  | nil =>
    show s.acquisition_counter = _
    rw [List.length_nil, Nat.add_zero, Nat.mod_eq_of_lt h]
  | cons hw tl ih =>
    have ht := (tick_frame c hw s).1
    show (run_ticks c tl (core_callback_t_before_exec c hw s)).acquisition_counter = _
    rw [ih _ (by rw [ht]; exact Nat.mod_lt _ (by norm_num)), ht, List.length_cons]
    omega

theorem run_ticks_modes (c : Consts) (hws : List Hw) (s : State) :
    (run_ticks c hws s).app_regs.REG_INPUT_MODE = s.app_regs.REG_INPUT_MODE ∧
    (run_ticks c hws s).app_regs.REG_ENCODER_MODE = s.app_regs.REG_ENCODER_MODE := by
  induction hws generalizing s with
  | nil => exact ⟨rfl, rfl⟩
  | cons hw tl ih =>
    obtain ⟨-, h2, h3⟩ := tick_frame c hw s
    obtain ⟨i1, i2⟩ := ih (core_callback_t_before_exec c hw s)
    exact ⟨i1.trans h2, i2.trans h3⟩

/-- Before the `k`-th tick after the new-second callback the counter holds
`k - 1`, so the `k`-th tick tests the value `k`. -/
theorem counter_at_kth_tick (c : Consts) (pre : List Hw) (s0 : State) (k : Nat)
    (hlen : pre.length + 1 = k) (hk : k < 65536) :
    (incr_counter (run_ticks c pre (core_callback_t_new_second s0))).acquisition_counter = k := by
  have h0 : (core_callback_t_new_second s0).acquisition_counter = 0 := by
    simp only [core_callback_t_new_second]
  rw [(incr_counter_frame _).1, run_ticks_counter c pre _ (by rw [h0]; norm_num), h0]
  omega

/-! ## Bits of the packed inputs -/

theorem testBit_ite_two_pow (b : Bool) (k i : Nat) :
    (if b = true then 2 ^ k else 0).testBit i = (b && decide (k = i)) := by
  cases b <;> simp [Nat.testBit_two_pow]

theorem pack_inputs_testBit (hw : Hw) (i : Nat) :
    (pack_inputs hw).testBit i = hw.read_IN i := by
  simp only [pack_inputs, B_IN0, B_IN1, B_IN2, B_IN3, B_IN4, B_IN5, B_IN6, B_IN7, B_IN8, B_IN9,
    Nat.one_shiftLeft, Nat.testBit_or, testBit_ite_two_pow]
  by_cases hi : i < 10
  · interval_cases i <;> simp [Hw.read_IN]
  · have h0 : ¬ (0 = i) := by omega
    have h1 : ¬ (1 = i) := by omega
    have h2 : ¬ (2 = i) := by omega
    have h3 : ¬ (3 = i) := by omega
    have h4 : ¬ (4 = i) := by omega
    have h5 : ¬ (5 = i) := by omega
    have h6 : ¬ (6 = i) := by omega
    have h7 : ¬ (7 = i) := by omega
    have h8 : ¬ (8 = i) := by omega
    have h9 : ¬ (9 = i) := by omega
    have hr : hw.read_IN i = false := by
      unfold Hw.read_IN
      split <;> first | omega | rfl
    simp [h0, h1, h2, h3, h4, h5, h6, h7, h8, h9, hr]

theorem read_IN_lt (hw : Hw) (i : Nat) (h : hw.read_IN i = true) : i < 10 := by
  by_contra hi
  unfold Hw.read_IN at h
  split at h <;> first | omega | simp at h

/-! ## Reset to defaults -/

/-- C9: after `core_callback_reset_registers`, from every prior state, the two
primary edge-enable registers equal the OR of `B_IN0` .. `B_IN9` (all ten
lines, the value 1023) and the two auxiliary ones equal
`B_AUX_IN0 | B_AUX_IN1`; every other register and the rest of the state are
unchanged; and a second reset changes nothing. -/
theorem reset_registers_defaults (c : Consts) (s : State) :
    (core_callback_reset_registers c s).app_regs.REG_RISING_EDGE_ENABLE =
      (B_IN0 ||| B_IN1 ||| B_IN2 ||| B_IN3 ||| B_IN4 ||| B_IN5 ||| B_IN6 ||| B_IN7 |||
        B_IN8 ||| B_IN9) ∧
    (core_callback_reset_registers c s).app_regs.REG_FALLING_EDGE_ENABLE =
      (B_IN0 ||| B_IN1 ||| B_IN2 ||| B_IN3 ||| B_IN4 ||| B_IN5 ||| B_IN6 ||| B_IN7 |||
        B_IN8 ||| B_IN9) ∧
    (B_IN0 ||| B_IN1 ||| B_IN2 ||| B_IN3 ||| B_IN4 ||| B_IN5 ||| B_IN6 ||| B_IN7 |||
        B_IN8 ||| B_IN9) = 1023 ∧
    (core_callback_reset_registers c s).app_regs.REG_AUX_INPUTS_RISING_EDGE_ENABLE =
      (c.B_AUX_IN0 ||| c.B_AUX_IN1) ∧
    (core_callback_reset_registers c s).app_regs.REG_AUX_INPUTS_FALLING_EDGE_ENABLE =
      (c.B_AUX_IN0 ||| c.B_AUX_IN1) ∧
    (core_callback_reset_registers c s).app_regs.REG_INPUTS_0 = s.app_regs.REG_INPUTS_0 ∧
    (core_callback_reset_registers c s).app_regs.REG_INPUTS_rest = s.app_regs.REG_INPUTS_rest ∧
    (core_callback_reset_registers c s).app_regs.REG_INPUT_MODE = s.app_regs.REG_INPUT_MODE ∧
    (core_callback_reset_registers c s).app_regs.REG_EXPANSION_OPTIONS =
      s.app_regs.REG_EXPANSION_OPTIONS ∧
    (core_callback_reset_registers c s).app_regs.REG_ENCODER = s.app_regs.REG_ENCODER ∧
    (core_callback_reset_registers c s).app_regs.REG_ENCODER_MODE = s.app_regs.REG_ENCODER_MODE ∧
    (core_callback_reset_registers c s).app_regs.others = s.app_regs.others ∧
    (core_callback_reset_registers c s).acquisition_counter = s.acquisition_counter ∧
    (core_callback_reset_registers c s).events = s.events ∧
    (core_callback_reset_registers c s).PORTH_OUT = s.PORTH_OUT ∧
    (core_callback_reset_registers c s).LED_8 = s.LED_8 ∧
    (core_callback_reset_registers c s).LED_9 = s.LED_9 ∧
    core_callback_reset_registers c (core_callback_reset_registers c s) =
      core_callback_reset_registers c s := by
  refine ⟨?_, ?_, ?_, ?_, ?_, ?_, ?_, ?_, ?_, ?_, ?_, ?_, ?_, ?_, ?_, ?_, ?_, ?_⟩ <;>
    first
    | (simp only [core_callback_reset_registers])
    | (simp only [B_IN0, B_IN1, B_IN2, B_IN3, B_IN4, B_IN5, B_IN6, B_IN7, B_IN8, B_IN9]; decide)

/-! ## The encoder transform -/

/-- C3, evaluated at the failing input: for the counter sample 40000 the code
stores 7232 in `REG_ENCODER`, on the fixed-rate path and on the on-change path,
and not the value 0xFFFF - 40000 = 25535 that the claim gives for a sample
above 32768; the local `timer_cnt` holds -25536 there, so the comparison with
32768 fails. The samples 32768 and 20000 give 0 and -12768 as claimed. -/
theorem encoder_reading_at_40000 :
    timer_cnt_of 40000 = -25536 ∧
    fixed_rate_reading 40000 = 7232 ∧
    on_change_reading 40000 = 7232 ∧
    (encoder_fixed_rate sampleConsts (idleHw 40000)
      (modeState sampleConsts.MSK_ENC_1000Hz 0 1 0)).app_regs.REG_ENCODER = 7232 ∧
    (encoder_on_change sampleConsts (idleHw 40000)
      (modeState sampleConsts.MSK_ENC_WHEN_CHANGE 0 1 0)).app_regs.REG_ENCODER = 7232 ∧
    (core_callback_t_before_exec sampleConsts (idleHw 40000)
      (modeState sampleConsts.MSK_ENC_1000Hz 0 1 0)).app_regs.REG_ENCODER = 7232 ∧
    (0xFFFF : Int) - 40000 = 25535 ∧
    fixed_rate_reading 32768 = 0 ∧
    fixed_rate_reading 20000 = -12768 := by
  have e1 : fixed_rate_reading 40000 = 7232 := by
    rw [fixed_rate_reading_eq 40000 (by norm_num)]; norm_num
  have e2 : on_change_reading 40000 = 7232 := by
    rw [on_change_reading_eq 40000 (by norm_num)]; norm_num
  have hraw : (idleHw 40000).TCE1_CNT = 40000 := by simp only [idleHw]
  refine ⟨?_, e1, e2, ?_, ?_, ?_, by norm_num, ?_, ?_⟩
  · simp only [timer_cnt_of, toInt16]; norm_num
  · rw [encoder_fixed_rate_value, hraw, e1]
  · rw [encoder_on_change_value, hraw, e2]
  · rw [(tick_regs _ _ _).2.2, encoder_part_fixed _ _ _ (by decide) (by decide),
      if_pos (by decide), encoder_fixed_rate_value, hraw, e1]
  · rw [fixed_rate_reading_eq 32768 (by norm_num)]; norm_num
  · rw [fixed_rate_reading_eq 20000 (by norm_num)]; norm_num

/-- C10: for every raw 16-bit sample the local `timer_cnt` (int16_t) is never
above 32768, so the `0xFFFF - timer_cnt` branch is dead; on the fixed-rate and
on the on-change path the value left in `REG_ENCODER` is the signed 16-bit wrap
of `raw - 32768`, which is `raw - 32768` itself and is `raw` with its top bit
flipped, read as a signed 16-bit value. -/
theorem encoder_transform_dead_branch (c : Consts) (hw : Hw) (s : State)
    (h : hw.TCE1_CNT < 65536) :
    ¬ (timer_cnt_of hw.TCE1_CNT > 32768) ∧
    fixed_rate_reading hw.TCE1_CNT = toInt16 ((hw.TCE1_CNT : Int) - 32768) ∧
    on_change_reading hw.TCE1_CNT = toInt16 ((hw.TCE1_CNT : Int) - 32768) ∧
    toInt16 ((hw.TCE1_CNT : Int) - 32768) = (hw.TCE1_CNT : Int) - 32768 ∧
    toInt16 ((hw.TCE1_CNT : Int) - 32768) = toInt16 ((hw.TCE1_CNT ^^^ 0x8000 : Nat) : Int) ∧
    (encoder_fixed_rate c hw s).app_regs.REG_ENCODER = toInt16 ((hw.TCE1_CNT : Int) - 32768) ∧
    (encoder_on_change c hw s).app_regs.REG_ENCODER = toInt16 ((hw.TCE1_CNT : Int) - 32768) := by
  have hid : toInt16 ((hw.TCE1_CNT : Int) - 32768) = (hw.TCE1_CNT : Int) - 32768 :=
    toInt16_of_range _ (by omega) (by omega)
  have hf := fixed_rate_reading_eq hw.TCE1_CNT h
  have ho := on_change_reading_eq hw.TCE1_CNT h
  refine ⟨timer_cnt_of_not_gt _, hf.trans hid.symm, ho.trans hid.symm, hid, ?_, ?_, ?_⟩
  · rw [xor_top_bit _ h]
    unfold toInt16
    split_ifs with hlt
    · push_cast
      omega
    · rw [Nat.cast_sub (by omega)]
      push_cast
      omega
  · rw [encoder_fixed_rate_value]
    exact hf.trans hid.symm
  · rw [encoder_on_change_value]
    exact ho.trans hid.symm

/-- Witness for C10 at the sample 40000, stored value 0. -/
theorem encoder_transform_dead_branch_witness :
    (idleHw 40000).TCE1_CNT < 65536 ∧
    (encoder_fixed_rate sampleConsts (idleHw 40000)
      (modeState 3 0 2 0)).app_regs.REG_ENCODER = toInt16 (((idleHw 40000).TCE1_CNT : Int) - 32768) :=
  ⟨by decide, (encoder_transform_dead_branch sampleConsts (idleHw 40000) (modeState 3 0 2 0)
    (by decide)).2.2.2.2.2.1⟩

/-! ## Digital inputs -/

/-- C6: on a tick whose input gate (line 248) is open, `REG_INPUTS[0]` after
the tick has bit `i` set exactly when `i` is below 10 and line `INi` is
asserted, whatever it held before; with IN0 and IN9 asserted and the other
lines deasserted it is `B_IN0 | B_IN9`; and exactly one `ADD_REG_INPUTS` event
is emitted, also when the packed value equals the previous one. The two event
addresses are taken to be distinct. -/
theorem inputs_packing (c : Consts) (hw : Hw) (s : State)
    (hadd : c.ADD_REG_ENCODER ≠ c.ADD_REG_INPUTS)
    (hgate : inputs_gate c (incr_counter s) = true) :
    (∀ i : Nat, (core_callback_t_before_exec c hw s).app_regs.REG_INPUTS_0.testBit i = true ↔
      i < 10 ∧ hw.read_IN i = true) ∧
    (core_callback_t_before_exec c hw s).app_regs.REG_INPUTS_0 = pack_inputs hw ∧
    (hw.read_IN0 = true → hw.read_IN1 = false → hw.read_IN2 = false → hw.read_IN3 = false →
      hw.read_IN4 = false → hw.read_IN5 = false → hw.read_IN6 = false → hw.read_IN7 = false →
      hw.read_IN8 = false → hw.read_IN9 = true →
      (core_callback_t_before_exec c hw s).app_regs.REG_INPUTS_0 = (B_IN0 ||| B_IN9)) ∧
    count_events c.ADD_REG_INPUTS (emitted s (core_callback_t_before_exec c hw s)) = 1 := by
  have hv : (core_callback_t_before_exec c hw s).app_regs.REG_INPUTS_0 = pack_inputs hw := by
    rw [(tick_regs c hw s).1, if_pos hgate]
  refine ⟨?_, hv, ?_, ?_⟩
  · intro i
    rw [hv, pack_inputs_testBit]
    exact ⟨fun h => ⟨read_IN_lt hw i h, h⟩, fun h => h.2⟩
  · intro h0 h1 h2 h3 h4 h5 h6 h7 h8 h9
    rw [hv]
    simp only [pack_inputs, h0, h1, h2, h3, h4, h5, h6, h7, h8, h9, if_true,
      B_IN0, B_IN9]
    decide
  · rw [tick_count_inputs c hw s hadd, if_pos hgate]

/-- Witness for C6: highest input rate, IN0 and IN9 asserted, and a bank that
already holds the packed value 513. -/
theorem inputs_packing_witness :
    sampleConsts.ADD_REG_ENCODER ≠ sampleConsts.ADD_REG_INPUTS ∧
    inputs_gate sampleConsts (incr_counter
      { modeState 0 sampleConsts.MSK_AT_2000FPS 0 0 with
        app_regs := { (modeState 0 sampleConsts.MSK_AT_2000FPS 0 0).app_regs with
          REG_INPUTS_0 := 513 } }) = true ∧
    count_events sampleConsts.ADD_REG_INPUTS (emitted
      { modeState 0 sampleConsts.MSK_AT_2000FPS 0 0 with
        app_regs := { (modeState 0 sampleConsts.MSK_AT_2000FPS 0 0).app_regs with
          REG_INPUTS_0 := 513 } }
      (core_callback_t_before_exec sampleConsts in0in9Hw
        { modeState 0 sampleConsts.MSK_AT_2000FPS 0 0 with
          app_regs := { (modeState 0 sampleConsts.MSK_AT_2000FPS 0 0).app_regs with
            REG_INPUTS_0 := 513 } })) = 1 :=
  ⟨by decide, by decide,
    (inputs_packing sampleConsts in0in9Hw _ (by decide) (by decide)).2.2.2⟩

/-- C7: with `REG_INPUT_MODE` constant, the `k`-th call of
`core_callback_t_before_exec` after `core_callback_t_new_second`
(1 <= k < 65536) samples the inputs (afterwards bit `i` of `REG_INPUTS[0]` is
set exactly when `i` is below 10 and line `INi` is asserted) and emits one
`ADD_REG_INPUTS` event if the mode is `MSK_AT_2000FPS`, or the mode is
`MSK_AT_1000FPS` and `k` is even; otherwise it leaves `REG_INPUTS` unchanged and
emits no `ADD_REG_INPUTS` event. The two event addresses are taken to be
distinct. -/
theorem inputs_rate_gate (c : Consts) (pre : List Hw) (hw : Hw) (s0 : State) (k : Nat)
    (hadd : c.ADD_REG_ENCODER ≠ c.ADD_REG_INPUTS)
    (hlen : pre.length + 1 = k) (hk : k < 65536) :
    (inputs_gate c (incr_counter (run_ticks c pre (core_callback_t_new_second s0))) = true ↔
      (s0.app_regs.REG_INPUT_MODE = c.MSK_AT_2000FPS ∨
        (s0.app_regs.REG_INPUT_MODE = c.MSK_AT_1000FPS ∧ k % 2 = 0))) ∧
    ((s0.app_regs.REG_INPUT_MODE = c.MSK_AT_2000FPS ∨
        (s0.app_regs.REG_INPUT_MODE = c.MSK_AT_1000FPS ∧ k % 2 = 0)) →
      (core_callback_t_before_exec c hw
          (run_ticks c pre (core_callback_t_new_second s0))).app_regs.REG_INPUTS_0 =
        pack_inputs hw ∧
      (∀ i : Nat,
        (core_callback_t_before_exec c hw
          (run_ticks c pre (core_callback_t_new_second s0))).app_regs.REG_INPUTS_0.testBit i
            = true ↔ i < 10 ∧ hw.read_IN i = true) ∧
      count_events c.ADD_REG_INPUTS
        (emitted (run_ticks c pre (core_callback_t_new_second s0))
          (core_callback_t_before_exec c hw
            (run_ticks c pre (core_callback_t_new_second s0)))) = 1) ∧
    (¬ (s0.app_regs.REG_INPUT_MODE = c.MSK_AT_2000FPS ∨
        (s0.app_regs.REG_INPUT_MODE = c.MSK_AT_1000FPS ∧ k % 2 = 0)) →
      (core_callback_t_before_exec c hw
          (run_ticks c pre (core_callback_t_new_second s0))).app_regs.REG_INPUTS_0 =
        (run_ticks c pre (core_callback_t_new_second s0)).app_regs.REG_INPUTS_0 ∧
      (core_callback_t_before_exec c hw
          (run_ticks c pre (core_callback_t_new_second s0))).app_regs.REG_INPUTS_rest =
        (run_ticks c pre (core_callback_t_new_second s0)).app_regs.REG_INPUTS_rest ∧
      count_events c.ADD_REG_INPUTS
        (emitted (run_ticks c pre (core_callback_t_new_second s0))
          (core_callback_t_before_exec c hw
            (run_ticks c pre (core_callback_t_new_second s0)))) = 0) := by
  have hmode : (incr_counter (run_ticks c pre (core_callback_t_new_second s0))).app_regs.REG_INPUT_MODE
      = s0.app_regs.REG_INPUT_MODE := by
    rw [(incr_counter_frame _).2.1, (run_ticks_modes c pre _).1]
    simp only [core_callback_t_new_second]
  have hcnt := counter_at_kth_tick c pre s0 k hlen hk
  have hiff : inputs_gate c (incr_counter (run_ticks c pre (core_callback_t_new_second s0))) = true ↔
      (s0.app_regs.REG_INPUT_MODE = c.MSK_AT_2000FPS ∨
        (s0.app_regs.REG_INPUT_MODE = c.MSK_AT_1000FPS ∧ k % 2 = 0)) := by
    rw [inputs_gate_iff, hmode, hcnt]
  refine ⟨hiff, fun h => ?_, fun h => ?_⟩
  · have hg := hiff.mpr h
    have hv : (core_callback_t_before_exec c hw
        (run_ticks c pre (core_callback_t_new_second s0))).app_regs.REG_INPUTS_0 =
        pack_inputs hw := by
      rw [(tick_regs c hw _).1, if_pos hg]
    refine ⟨hv, fun i => ?_, by rw [tick_count_inputs c hw _ hadd, if_pos hg]⟩
    rw [hv, pack_inputs_testBit]
    exact ⟨fun hb => ⟨read_IN_lt hw i hb, hb⟩, fun hb => hb.2⟩
  · have hg : ¬ (inputs_gate c
        (incr_counter (run_ticks c pre (core_callback_t_new_second s0))) = true) :=
      fun hg => h (hiff.mp hg)
    exact ⟨by rw [(tick_regs c hw _).1, if_neg hg], (tick_regs c hw _).2.1,
      by rw [tick_count_inputs c hw _ hadd, if_neg hg]⟩

/-- Witness for C7: the second tick after the new-second callback in mode
`MSK_AT_1000FPS` samples the inputs; with IN0 and IN9 asserted, bit 9 of
`REG_INPUTS[0]` is set afterwards. -/
theorem inputs_rate_gate_witness :
    sampleConsts.ADD_REG_ENCODER ≠ sampleConsts.ADD_REG_INPUTS ∧
    [idleHw 0].length + 1 = 2 ∧ 2 < 65536 ∧
    ((modeState 0 sampleConsts.MSK_AT_1000FPS 7 0).app_regs.REG_INPUT_MODE =
        sampleConsts.MSK_AT_2000FPS ∨
      ((modeState 0 sampleConsts.MSK_AT_1000FPS 7 0).app_regs.REG_INPUT_MODE =
        sampleConsts.MSK_AT_1000FPS ∧ 2 % 2 = 0)) ∧
    (inputs_gate sampleConsts (incr_counter (run_ticks sampleConsts [idleHw 0]
      (core_callback_t_new_second (modeState 0 sampleConsts.MSK_AT_1000FPS 7 0)))) = true ↔
      ((modeState 0 sampleConsts.MSK_AT_1000FPS 7 0).app_regs.REG_INPUT_MODE =
          sampleConsts.MSK_AT_2000FPS ∨
        ((modeState 0 sampleConsts.MSK_AT_1000FPS 7 0).app_regs.REG_INPUT_MODE =
          sampleConsts.MSK_AT_1000FPS ∧ 2 % 2 = 0))) ∧
    (core_callback_t_before_exec sampleConsts in0in9Hw
      (run_ticks sampleConsts [idleHw 0]
        (core_callback_t_new_second
          (modeState 0 sampleConsts.MSK_AT_1000FPS 7 0)))).app_regs.REG_INPUTS_0.testBit 9
      = true :=
  ⟨by decide, by decide, by decide, by decide,
    (inputs_rate_gate sampleConsts [idleHw 0] in0in9Hw
      (modeState 0 sampleConsts.MSK_AT_1000FPS 7 0) 2 (by decide) (by decide) (by decide)).1,
    (((inputs_rate_gate sampleConsts [idleHw 0] in0in9Hw
      (modeState 0 sampleConsts.MSK_AT_1000FPS 7 0) 2 (by decide) (by decide) (by decide)).2.1
        (by decide)).2.1 9).mpr ⟨by decide, by decide⟩⟩

/-! ## Encoder modes -/

/-- C5: in a fixed-rate encoder mode, on every tick that the rate gate of
lines 203-205 selects, `REG_ENCODER` is set to the transformed reading and
exactly one `ADD_REG_ENCODER` event is emitted, for every raw sample and every
previous content of `REG_ENCODER`. The mode is taken to lie in the group mask
`GM_ENC_MODE` and to differ from `MSK_ENC_WHEN_CHANGE`, and the two event
addresses to be distinct. -/
theorem fixed_rate_modes_always_emit (c : Consts) (hw : Hw) (s : State)
    (hadd : c.ADD_REG_ENCODER ≠ c.ADD_REG_INPUTS)
    (hen : s.app_regs.REG_ENCODER_MODE &&& c.GM_ENC_MODE ≠ 0)
    (hnc : s.app_regs.REG_ENCODER_MODE ≠ c.MSK_ENC_WHEN_CHANGE)
    (hgate : fixed_rate_gate c (incr_counter s) = true) :
    (s.app_regs.REG_ENCODER_MODE = c.MSK_ENC_1000Hz ∨
      s.app_regs.REG_ENCODER_MODE = c.MSK_ENC_500Hz ∨
      s.app_regs.REG_ENCODER_MODE = c.MSK_ENC_250Hz) ∧
    (core_callback_t_before_exec c hw s).app_regs.REG_ENCODER =
      fixed_rate_reading hw.TCE1_CNT ∧
    count_events c.ADD_REG_ENCODER (emitted s (core_callback_t_before_exec c hw s)) = 1 := by
  have hr : (incr_counter s).app_regs = s.app_regs := (incr_counter_frame s).2.1
  have hp : encoder_part c hw (incr_counter s) = encoder_fixed_rate c hw (incr_counter s) := by
    rw [encoder_part_fixed c hw _ (by rw [hr]; exact hen) (by rw [hr]; exact hnc), if_pos hgate]
  refine ⟨?_, ?_, ?_⟩
  · have h := (fixed_rate_gate_iff c (incr_counter s)).mp hgate
    rw [hr] at h
    rcases h with h | h | h
    · exact Or.inl h.1
    · exact Or.inr (Or.inl h.1)
    · exact Or.inr (Or.inr h.1)
  · rw [(tick_regs c hw s).2.2, hp, encoder_fixed_rate_value]
  · rw [tick_count_encoder c hw s hadd, hp, count_encoder_fixed_rate]

/-- Witness for C5: mode `MSK_ENC_500Hz`, counter 3 (so the tick tests 4), the
sample 40000, and `REG_ENCODER` already holding the reading 7232. -/
theorem fixed_rate_modes_always_emit_witness :
    sampleConsts.ADD_REG_ENCODER ≠ sampleConsts.ADD_REG_INPUTS ∧
    (modeState sampleConsts.MSK_ENC_500Hz 0 3 7232).app_regs.REG_ENCODER_MODE &&&
      sampleConsts.GM_ENC_MODE ≠ 0 ∧
    (modeState sampleConsts.MSK_ENC_500Hz 0 3 7232).app_regs.REG_ENCODER_MODE ≠
      sampleConsts.MSK_ENC_WHEN_CHANGE ∧
    fixed_rate_gate sampleConsts (incr_counter (modeState sampleConsts.MSK_ENC_500Hz 0 3 7232))
      = true ∧
    count_events sampleConsts.ADD_REG_ENCODER
      (emitted (modeState sampleConsts.MSK_ENC_500Hz 0 3 7232)
        (core_callback_t_before_exec sampleConsts (idleHw 40000)
          (modeState sampleConsts.MSK_ENC_500Hz 0 3 7232))) = 1 :=
  ⟨by decide, by decide, by decide, by decide,
    (fixed_rate_modes_always_emit sampleConsts (idleHw 40000)
      (modeState sampleConsts.MSK_ENC_500Hz 0 3 7232)
      (by decide) (by decide) (by decide) (by decide)).2.2⟩

/-- One tick in the on-change mode, by parity of the incremented counter: on a
gated tick the reading is compared with the stored value. -/
theorem on_change_tick (c : Consts) (hw : Hw) (s : State)
    (hadd : c.ADD_REG_ENCODER ≠ c.ADD_REG_INPUTS)
    (hmode : s.app_regs.REG_ENCODER_MODE = c.MSK_ENC_WHEN_CHANGE)
    (hen : c.MSK_ENC_WHEN_CHANGE &&& c.GM_ENC_MODE ≠ 0)
    (h1 : c.MSK_ENC_WHEN_CHANGE ≠ c.MSK_ENC_1000Hz)
    (h2 : c.MSK_ENC_WHEN_CHANGE ≠ c.MSK_ENC_500Hz)
    (h3 : c.MSK_ENC_WHEN_CHANGE ≠ c.MSK_ENC_250Hz) :
    ((incr_counter s).acquisition_counter % 2 = 0 →
      (core_callback_t_before_exec c hw s).app_regs.REG_ENCODER =
        on_change_reading hw.TCE1_CNT ∧
      count_events c.ADD_REG_ENCODER (emitted s (core_callback_t_before_exec c hw s)) =
        if on_change_reading hw.TCE1_CNT ≠ s.app_regs.REG_ENCODER then 1 else 0) ∧
    (¬ ((incr_counter s).acquisition_counter % 2 = 0) →
      (core_callback_t_before_exec c hw s).app_regs.REG_ENCODER = s.app_regs.REG_ENCODER ∧
      count_events c.ADD_REG_ENCODER (emitted s (core_callback_t_before_exec c hw s)) = 0) := by
  have hr : (incr_counter s).app_regs = s.app_regs := (incr_counter_frame s).2.1
  have hp := encoder_part_on_change c hw (incr_counter s)
    (by rw [hr, hmode]; exact hen) (by rw [hr]; exact hmode) h1 h2 h3
  constructor
  · intro hg
    rw [if_pos hg] at hp
    refine ⟨?_, ?_⟩
    · rw [(tick_regs c hw s).2.2, hp, encoder_on_change_value]
    · rw [tick_count_encoder c hw s hadd, hp, count_encoder_on_change, hr]
  · intro hg
    rw [if_neg hg] at hp
    refine ⟨?_, ?_⟩
    · rw [(tick_regs c hw s).2.2, hp, hr]
    · rw [tick_count_encoder c hw s hadd, hp, count_events_self]

/-- C4: in the on-change mode, on a gated tick (line 221: the incremented
counter is even) an `ADD_REG_ENCODER` event is emitted exactly when the
transformed reading differs from the value `REG_ENCODER` held before the tick,
and at most one. When it differs, two consecutive gated ticks that read the
same raw sample (with the ungated tick between them) emit one encoder event in
total: the first gated tick emits it and stores the reading, the ungated tick
and the second gated tick emit none and leave `REG_ENCODER` unchanged.
`MSK_ENC_WHEN_CHANGE` is taken to lie in the group mask and to differ from the
fixed-rate modes, and the two event addresses to be distinct. -/
theorem on_change_suppresses_repeats (c : Consts) (hw1 hw2 hw3 : Hw) (s : State)
    (hadd : c.ADD_REG_ENCODER ≠ c.ADD_REG_INPUTS)
    (hmode : s.app_regs.REG_ENCODER_MODE = c.MSK_ENC_WHEN_CHANGE)
    (hen : c.MSK_ENC_WHEN_CHANGE &&& c.GM_ENC_MODE ≠ 0)
    (h1 : c.MSK_ENC_WHEN_CHANGE ≠ c.MSK_ENC_1000Hz)
    (h2 : c.MSK_ENC_WHEN_CHANGE ≠ c.MSK_ENC_500Hz)
    (h3 : c.MSK_ENC_WHEN_CHANGE ≠ c.MSK_ENC_250Hz)
    (hgate : (incr_counter s).acquisition_counter &&& 1 = 0)
    (hraw : hw3.TCE1_CNT = hw1.TCE1_CNT) :
    (0 < count_events c.ADD_REG_ENCODER (emitted s (core_callback_t_before_exec c hw1 s)) ↔
      on_change_reading hw1.TCE1_CNT ≠ s.app_regs.REG_ENCODER) ∧
    count_events c.ADD_REG_ENCODER (emitted s (core_callback_t_before_exec c hw1 s)) ≤ 1 ∧
    (on_change_reading hw1.TCE1_CNT ≠ s.app_regs.REG_ENCODER →
      count_events c.ADD_REG_ENCODER (emitted s (core_callback_t_before_exec c hw1 s)) = 1 ∧
      (core_callback_t_before_exec c hw1 s).app_regs.REG_ENCODER =
        on_change_reading hw1.TCE1_CNT ∧
      count_events c.ADD_REG_ENCODER (emitted (core_callback_t_before_exec c hw1 s)
        (core_callback_t_before_exec c hw2 (core_callback_t_before_exec c hw1 s))) = 0 ∧
      (incr_counter (core_callback_t_before_exec c hw2
        (core_callback_t_before_exec c hw1 s))).acquisition_counter &&& 1 = 0 ∧
      count_events c.ADD_REG_ENCODER
        (emitted (core_callback_t_before_exec c hw2 (core_callback_t_before_exec c hw1 s))
          (core_callback_t_before_exec c hw3
            (core_callback_t_before_exec c hw2 (core_callback_t_before_exec c hw1 s)))) = 0 ∧
      (core_callback_t_before_exec c hw3
        (core_callback_t_before_exec c hw2
          (core_callback_t_before_exec c hw1 s))).app_regs.REG_ENCODER =
        (core_callback_t_before_exec c hw1 s).app_regs.REG_ENCODER) := by
  rw [Nat.and_one_is_mod] at hgate
  obtain ⟨a1, a2⟩ := (on_change_tick c hw1 s hadd hmode hen h1 h2 h3).1 hgate
  have hm1 := (tick_frame c hw1 s).2.2.trans hmode
  have hc1 := (tick_frame c hw1 s).1
  have hm2 := (tick_frame c hw2 (core_callback_t_before_exec c hw1 s)).2.2.trans hm1
  have hc2 := (tick_frame c hw2 (core_callback_t_before_exec c hw1 s)).1
  have hi0 := (incr_counter_frame s).1
  have hi1 := (incr_counter_frame (core_callback_t_before_exec c hw1 s)).1
  have hi2 := (incr_counter_frame
    (core_callback_t_before_exec c hw2 (core_callback_t_before_exec c hw1 s))).1
  rw [hi0] at hgate
  have hg1 : ¬ ((incr_counter (core_callback_t_before_exec c hw1 s)).acquisition_counter % 2
      = 0) := by
    rw [hi1, hc1]
    omega
  have hg2 : (incr_counter (core_callback_t_before_exec c hw2
      (core_callback_t_before_exec c hw1 s))).acquisition_counter % 2 = 0 := by
    rw [hi2, hc2, hc1]
    omega
  obtain ⟨b1, b2⟩ := (on_change_tick c hw2 _ hadd hm1 hen h1 h2 h3).2 hg1
  obtain ⟨d1, d2⟩ := (on_change_tick c hw3 _ hadd hm2 hen h1 h2 h3).1 hg2
  refine ⟨?_, ?_, fun hne => ?_⟩
  · rw [a2]
    split_ifs with h <;> simp [h]
  · rw [a2]
    split_ifs <;> simp
  · refine ⟨by rw [a2, if_pos hne], a1, b2, by rw [Nat.and_one_is_mod]; exact hg2, ?_, ?_⟩
    · rw [d2, b1, a1, hraw, if_neg (not_not.mpr rfl)]
    · rw [d1, a1, hraw]

/-- Witness for C4: counter 1, stored value 0 and the sample 40000 (reading
7232) on both gated ticks. -/
theorem on_change_suppresses_repeats_witness :
    sampleConsts.ADD_REG_ENCODER ≠ sampleConsts.ADD_REG_INPUTS ∧
    (modeState sampleConsts.MSK_ENC_WHEN_CHANGE 0 1 0).app_regs.REG_ENCODER_MODE =
      sampleConsts.MSK_ENC_WHEN_CHANGE ∧
    sampleConsts.MSK_ENC_WHEN_CHANGE &&& sampleConsts.GM_ENC_MODE ≠ 0 ∧
    sampleConsts.MSK_ENC_WHEN_CHANGE ≠ sampleConsts.MSK_ENC_1000Hz ∧
    sampleConsts.MSK_ENC_WHEN_CHANGE ≠ sampleConsts.MSK_ENC_500Hz ∧
    sampleConsts.MSK_ENC_WHEN_CHANGE ≠ sampleConsts.MSK_ENC_250Hz ∧
    (incr_counter (modeState sampleConsts.MSK_ENC_WHEN_CHANGE 0 1 0)).acquisition_counter &&& 1
      = 0 ∧
    (idleHw 40000).TCE1_CNT = (idleHw 40000).TCE1_CNT ∧
    on_change_reading (idleHw 40000).TCE1_CNT ≠
      (modeState sampleConsts.MSK_ENC_WHEN_CHANGE 0 1 0).app_regs.REG_ENCODER ∧
    count_events sampleConsts.ADD_REG_ENCODER
      (emitted (modeState sampleConsts.MSK_ENC_WHEN_CHANGE 0 1 0)
        (core_callback_t_before_exec sampleConsts (idleHw 40000)
          (modeState sampleConsts.MSK_ENC_WHEN_CHANGE 0 1 0))) = 1 :=
  have hne : on_change_reading (idleHw 40000).TCE1_CNT ≠
      (modeState sampleConsts.MSK_ENC_WHEN_CHANGE 0 1 0).app_regs.REG_ENCODER := by
    rw [on_change_reading_eq _ (by decide)]
    decide
  ⟨by decide, by decide, by decide, by decide, by decide, by decide, by decide, rfl, hne,
    ((on_change_suppresses_repeats sampleConsts (idleHw 40000) (idleHw 5) (idleHw 40000)
      (modeState sampleConsts.MSK_ENC_WHEN_CHANGE 0 1 0)
      (by decide) (by decide) (by decide) (by decide) (by decide) (by decide) (by decide)
      rfl).2.2 hne).1⟩

/-- C8 as stated fails: in mode `MSK_ENC_1000Hz`, with the encoder enabled, the
first tick after the new-second callback emits no `ADD_REG_ENCODER` event and
leaves `REG_ENCODER` at its old value 0 (the sample 40000 would give 7232); and
in mode `MSK_ENC_500Hz` the second tick emits none either. -/
theorem encoder_rate_gate_counterexample :
    (modeState sampleConsts.MSK_ENC_1000Hz 0 9 0).app_regs.REG_ENCODER_MODE &&&
      sampleConsts.GM_ENC_MODE ≠ 0 ∧
    count_events sampleConsts.ADD_REG_ENCODER
      (emitted (core_callback_t_new_second (modeState sampleConsts.MSK_ENC_1000Hz 0 9 0))
        (core_callback_t_before_exec sampleConsts (idleHw 40000)
          (core_callback_t_new_second (modeState sampleConsts.MSK_ENC_1000Hz 0 9 0)))) = 0 ∧
    (core_callback_t_before_exec sampleConsts (idleHw 40000)
      (core_callback_t_new_second
        (modeState sampleConsts.MSK_ENC_1000Hz 0 9 0))).app_regs.REG_ENCODER = 0 ∧
    (modeState sampleConsts.MSK_ENC_500Hz 0 9 0).app_regs.REG_ENCODER_MODE &&&
      sampleConsts.GM_ENC_MODE ≠ 0 ∧
    count_events sampleConsts.ADD_REG_ENCODER
      (emitted
        (run_ticks sampleConsts [idleHw 40000]
          (core_callback_t_new_second (modeState sampleConsts.MSK_ENC_500Hz 0 9 0)))
        (core_callback_t_before_exec sampleConsts (idleHw 40000)
          (run_ticks sampleConsts [idleHw 40000]
            (core_callback_t_new_second (modeState sampleConsts.MSK_ENC_500Hz 0 9 0))))) = 0 := by
  refine ⟨by decide, ?_, ?_, by decide, ?_⟩
  · rw [tick_count_encoder _ _ _ (by decide),
      encoder_part_fixed _ _ _ (by decide) (by decide), if_neg (by decide), count_events_self]
  · rw [(tick_regs _ _ _).2.2, encoder_part_fixed _ _ _ (by decide) (by decide),
      if_neg (by decide)]
    decide
  · have hm := (run_ticks_modes sampleConsts [idleHw 40000]
      (core_callback_t_new_second (modeState sampleConsts.MSK_ENC_500Hz 0 9 0))).2
    have hc := counter_at_kth_tick sampleConsts [idleHw 40000]
      (modeState sampleConsts.MSK_ENC_500Hz 0 9 0) 2 (by decide) (by decide)
    have hr := (incr_counter_frame (run_ticks sampleConsts [idleHw 40000]
      (core_callback_t_new_second (modeState sampleConsts.MSK_ENC_500Hz 0 9 0)))).2.1
    have hm0 : (core_callback_t_new_second
        (modeState sampleConsts.MSK_ENC_500Hz 0 9 0)).app_regs.REG_ENCODER_MODE = 2 := by decide
    have hg : ¬ (fixed_rate_gate sampleConsts (incr_counter (run_ticks sampleConsts [idleHw 40000]
        (core_callback_t_new_second (modeState sampleConsts.MSK_ENC_500Hz 0 9 0)))) = true) := by
      rw [fixed_rate_gate_iff, hc, hr, hm, hm0]
      decide
    rw [tick_count_encoder _ _ _ (by decide),
      encoder_part_fixed _ _ _ (by rw [hr, hm, hm0]; decide) (by rw [hr, hm, hm0]; decide),
      if_neg hg, count_events_self]

/-- C8, amended: with the encoder enabled in a mode other than
`MSK_ENC_WHEN_CHANGE` and `REG_ENCODER_MODE` constant, the `k`-th call of
`core_callback_t_before_exec` after `core_callback_t_new_second`
(1 <= k < 65536) stores the reading in `REG_ENCODER` and emits one
`ADD_REG_ENCODER` event when the rate gate of lines 203-205 selects the tick,
and otherwise leaves `REG_ENCODER` unchanged and emits no such event; the gate
selects the tick exactly when `k` is a multiple of 2 in mode `MSK_ENC_1000Hz`,
of 4 in mode `MSK_ENC_500Hz` and of 8 in mode `MSK_ENC_250Hz`. The three mode
values and the two event addresses are taken to be distinct. -/
theorem encoder_rate_gate (c : Consts) (pre : List Hw) (hw : Hw) (s0 : State) (k : Nat)
    (hadd : c.ADD_REG_ENCODER ≠ c.ADD_REG_INPUTS)
    (hlen : pre.length + 1 = k) (hk : k < 65536)
    (hen : s0.app_regs.REG_ENCODER_MODE &&& c.GM_ENC_MODE ≠ 0)
    (hnc : s0.app_regs.REG_ENCODER_MODE ≠ c.MSK_ENC_WHEN_CHANGE)
    (h12 : c.MSK_ENC_1000Hz ≠ c.MSK_ENC_500Hz)
    (h14 : c.MSK_ENC_1000Hz ≠ c.MSK_ENC_250Hz)
    (h24 : c.MSK_ENC_500Hz ≠ c.MSK_ENC_250Hz) :
    (fixed_rate_gate c (incr_counter (run_ticks c pre (core_callback_t_new_second s0))) = true →
      (core_callback_t_before_exec c hw
          (run_ticks c pre (core_callback_t_new_second s0))).app_regs.REG_ENCODER =
        fixed_rate_reading hw.TCE1_CNT ∧
      count_events c.ADD_REG_ENCODER
        (emitted (run_ticks c pre (core_callback_t_new_second s0))
          (core_callback_t_before_exec c hw
            (run_ticks c pre (core_callback_t_new_second s0)))) = 1) ∧
    (¬ (fixed_rate_gate c (incr_counter (run_ticks c pre (core_callback_t_new_second s0)))
        = true) →
      (core_callback_t_before_exec c hw
          (run_ticks c pre (core_callback_t_new_second s0))).app_regs.REG_ENCODER =
        (run_ticks c pre (core_callback_t_new_second s0)).app_regs.REG_ENCODER ∧
      count_events c.ADD_REG_ENCODER
        (emitted (run_ticks c pre (core_callback_t_new_second s0))
          (core_callback_t_before_exec c hw
            (run_ticks c pre (core_callback_t_new_second s0)))) = 0) ∧
    (s0.app_regs.REG_ENCODER_MODE = c.MSK_ENC_1000Hz →
      (fixed_rate_gate c (incr_counter (run_ticks c pre (core_callback_t_new_second s0))) = true
        ↔ k % 2 = 0)) ∧
    (s0.app_regs.REG_ENCODER_MODE = c.MSK_ENC_500Hz →
      (fixed_rate_gate c (incr_counter (run_ticks c pre (core_callback_t_new_second s0))) = true
        ↔ k % 4 = 0)) ∧
    (s0.app_regs.REG_ENCODER_MODE = c.MSK_ENC_250Hz →
      (fixed_rate_gate c (incr_counter (run_ticks c pre (core_callback_t_new_second s0))) = true
        ↔ k % 8 = 0)) := by
  have hr := (incr_counter_frame (run_ticks c pre (core_callback_t_new_second s0))).2.1
  have hm0 : (core_callback_t_new_second s0).app_regs.REG_ENCODER_MODE =
      s0.app_regs.REG_ENCODER_MODE := by
    simp only [core_callback_t_new_second]
  have hmode : (incr_counter (run_ticks c pre
      (core_callback_t_new_second s0))).app_regs.REG_ENCODER_MODE =
      s0.app_regs.REG_ENCODER_MODE := by
    rw [hr, (run_ticks_modes c pre _).2, hm0]
  have hcnt := counter_at_kth_tick c pre s0 k hlen hk
  have hp := encoder_part_fixed c hw
    (incr_counter (run_ticks c pre (core_callback_t_new_second s0)))
    (by rw [hmode]; exact hen) (by rw [hmode]; exact hnc)
  refine ⟨fun hg => ?_, fun hg => ?_, fun hm => ?_, fun hm => ?_, fun hm => ?_⟩
  · rw [if_pos hg] at hp
    exact ⟨by rw [(tick_regs c hw _).2.2, hp, encoder_fixed_rate_value],
      by rw [tick_count_encoder c hw _ hadd, hp, count_encoder_fixed_rate]⟩
  · rw [if_neg hg] at hp
    exact ⟨by rw [(tick_regs c hw _).2.2, hp, hr],
      by rw [tick_count_encoder c hw _ hadd, hp, count_events_self]⟩
  · rw [fixed_rate_gate_iff, hmode, hcnt, hm]
    constructor
    · rintro (h | h | h)
      · exact h.2
      · exact absurd h.1 h12
      · exact absurd h.1 h14
    · exact fun h => Or.inl ⟨rfl, h⟩
  · rw [fixed_rate_gate_iff, hmode, hcnt, hm]
    constructor
    · rintro (h | h | h)
      · exact absurd h.1.symm h12
      · exact h.2
      · exact absurd h.1 h24
    · exact fun h => Or.inr (Or.inl ⟨rfl, h⟩)
  · rw [fixed_rate_gate_iff, hmode, hcnt, hm]
    constructor
    · rintro (h | h | h)
      · exact absurd h.1.symm h14
      · exact absurd h.1.symm h24
      · exact h.2
    · exact fun h => Or.inr (Or.inr ⟨rfl, h⟩)

/-- Witness for the amended C8: mode `MSK_ENC_1000Hz`, second tick after the
new-second callback. -/
theorem encoder_rate_gate_witness :
    sampleConsts.ADD_REG_ENCODER ≠ sampleConsts.ADD_REG_INPUTS ∧
    [idleHw 7].length + 1 = 2 ∧ 2 < 65536 ∧
    (modeState sampleConsts.MSK_ENC_1000Hz 0 9 0).app_regs.REG_ENCODER_MODE &&&
      sampleConsts.GM_ENC_MODE ≠ 0 ∧
    (modeState sampleConsts.MSK_ENC_1000Hz 0 9 0).app_regs.REG_ENCODER_MODE ≠
      sampleConsts.MSK_ENC_WHEN_CHANGE ∧
    sampleConsts.MSK_ENC_1000Hz ≠ sampleConsts.MSK_ENC_500Hz ∧
    sampleConsts.MSK_ENC_1000Hz ≠ sampleConsts.MSK_ENC_250Hz ∧
    sampleConsts.MSK_ENC_500Hz ≠ sampleConsts.MSK_ENC_250Hz ∧
    (fixed_rate_gate sampleConsts (incr_counter (run_ticks sampleConsts [idleHw 7]
      (core_callback_t_new_second (modeState sampleConsts.MSK_ENC_1000Hz 0 9 0)))) = true
        ↔ 2 % 2 = 0) :=
  ⟨by decide, by decide, by decide, by decide, by decide, by decide, by decide, by decide,
    (encoder_rate_gate sampleConsts [idleHw 7] (idleHw 40000)
      (modeState sampleConsts.MSK_ENC_1000Hz 0 9 0) 2
      (by decide) (by decide) (by decide) (by decide) (by decide) (by decide) (by decide)
      (by decide)).2.2.1 (by decide)⟩

/-! ## Register dispatch -/

theorem getElem?_of_sized {α : Type} (l : List α) (c : Consts) (add : Nat)
    (hlen : l.length = c.APP_REGS_ADD_MAX - c.APP_REGS_ADD_MIN + 1)
    (hmin : c.APP_REGS_ADD_MIN ≤ add) (hmax : add ≤ c.APP_REGS_ADD_MAX) :
    ∃ x, l[add - c.APP_REGS_ADD_MIN]? = some x := by
  have hlt : add - c.APP_REGS_ADD_MIN < l.length := by omega
  exact ⟨l[add - c.APP_REGS_ADD_MIN], List.getElem?_eq_getElem hlt⟩

theorem read_out_of_range (c : Consts) (t : Tables) (add type : Nat) (s : State)
    (h : add < c.APP_REGS_ADD_MIN ∨ add > c.APP_REGS_ADD_MAX) :
    core_read_app_register c t add type s = some ⟨false, s, []⟩ := by
  simp only [core_read_app_register, if_pos h]

theorem write_out_of_range (c : Consts) (t : Tables) (add type : Nat) (content : List Nat)
    (n_elements : Nat) (s : State)
    (h : add < c.APP_REGS_ADD_MIN ∨ add > c.APP_REGS_ADD_MAX) :
    core_write_app_register c t add type content n_elements s = some ⟨false, s, []⟩ := by
  simp only [core_write_app_register, if_pos h]

/-- The read dispatch on an address of the range, given the table entries. -/
theorem read_in_range (c : Consts) (t : Tables) (add type : Nat) (s : State)
    (ty : Nat) (f : State → State)
    (hmin : c.APP_REGS_ADD_MIN ≤ add) (hmax : add ≤ c.APP_REGS_ADD_MAX)
    (hty : t.app_regs_type[add - c.APP_REGS_ADD_MIN]? = some ty)
    (hf : t.app_func_rd_pointer[add - c.APP_REGS_ADD_MIN]? = some f) :
    core_read_app_register c t add type s =
      if ty ≠ type then some ⟨false, s, []⟩
      else some ⟨true, f s, [Call.rd (add - c.APP_REGS_ADD_MIN)]⟩ := by
  have h : ¬ (add < c.APP_REGS_ADD_MIN ∨ add > c.APP_REGS_ADD_MAX) := by omega
  simp only [core_read_app_register, if_neg h, hty, hf]

/-- The write dispatch on an address of the range, given the table entries. -/
theorem write_in_range (c : Consts) (t : Tables) (add type : Nat) (content : List Nat)
    (n_elements : Nat) (s : State) (ty n : Nat) (g : List Nat → State → Bool × State)
    (hmin : c.APP_REGS_ADD_MIN ≤ add) (hmax : add ≤ c.APP_REGS_ADD_MAX)
    (hty : t.app_regs_type[add - c.APP_REGS_ADD_MIN]? = some ty)
    (hn : t.app_regs_n_elements[add - c.APP_REGS_ADD_MIN]? = some n)
    (hg : t.app_func_wr_pointer[add - c.APP_REGS_ADD_MIN]? = some g) :
    core_write_app_register c t add type content n_elements s =
      if ty ≠ type then some ⟨false, s, []⟩
      else if n ≠ n_elements then some ⟨false, s, []⟩
      else some ⟨(g content s).1, (g content s).2,
        [Call.wr (add - c.APP_REGS_ADD_MIN) content]⟩ := by
  have h : ¬ (add < c.APP_REGS_ADD_MIN ∨ add > c.APP_REGS_ADD_MAX) := by omega
  simp only [core_write_app_register, if_neg h, hty, hn, hg]

/-- C1: for every address, type tag, payload and element count, an address
outside [APP_REGS_ADD_MIN, APP_REGS_ADD_MAX] makes both dispatch functions
return false with no handler call and the state unchanged, whatever the tables
hold (no table is read); with tables of one entry per address, neither function
ever reads past a table, a registered type different from the claimed one makes
both return false with no handler call and the state unchanged, and so does,
for the write, a registered element count different from the claimed one. -/
theorem dispatch_rejects (c : Consts) (t : Tables) (add type : Nat) (content : List Nat)
    (n_elements : Nat) (s : State) :
    ((add < c.APP_REGS_ADD_MIN ∨ add > c.APP_REGS_ADD_MAX) →
      core_read_app_register c t add type s = some ⟨false, s, []⟩ ∧
      core_write_app_register c t add type content n_elements s = some ⟨false, s, []⟩) ∧
    (t.Sized c →
      (core_read_app_register c t add type s).isSome = true ∧
      (core_write_app_register c t add type content n_elements s).isSome = true) ∧
    (t.Sized c → c.APP_REGS_ADD_MIN ≤ add → add ≤ c.APP_REGS_ADD_MAX →
      t.app_regs_type[add - c.APP_REGS_ADD_MIN]? ≠ some type →
      core_read_app_register c t add type s = some ⟨false, s, []⟩ ∧
      core_write_app_register c t add type content n_elements s = some ⟨false, s, []⟩) ∧
    (t.Sized c → c.APP_REGS_ADD_MIN ≤ add → add ≤ c.APP_REGS_ADD_MAX →
      t.app_regs_n_elements[add - c.APP_REGS_ADD_MIN]? ≠ some n_elements →
      core_write_app_register c t add type content n_elements s = some ⟨false, s, []⟩) := by
  refine ⟨fun h => ⟨read_out_of_range c t add type s h,
    write_out_of_range c t add type content n_elements s h⟩, fun hs => ?_,
    fun hs hmin hmax hty => ?_, fun hs hmin hmax hn => ?_⟩
  · by_cases h : add < c.APP_REGS_ADD_MIN ∨ add > c.APP_REGS_ADD_MAX
    · rw [read_out_of_range c t add type s h,
        write_out_of_range c t add type content n_elements s h]
      exact ⟨rfl, rfl⟩
    · obtain ⟨ty, ety⟩ := getElem?_of_sized t.app_regs_type c add hs.1 (by omega) (by omega)
      obtain ⟨n, en⟩ := getElem?_of_sized t.app_regs_n_elements c add hs.2.1 (by omega) (by omega)
      obtain ⟨f, ef⟩ := getElem?_of_sized t.app_func_rd_pointer c add hs.2.2.1 (by omega) (by omega)
      obtain ⟨g, eg⟩ := getElem?_of_sized t.app_func_wr_pointer c add hs.2.2.2 (by omega) (by omega)
      rw [read_in_range c t add type s ty f (by omega) (by omega) ety ef,
        write_in_range c t add type content n_elements s ty n g (by omega) (by omega) ety en eg]
      constructor
      · split_ifs <;> rfl
      · split_ifs <;> rfl
  · obtain ⟨ty, ety⟩ := getElem?_of_sized t.app_regs_type c add hs.1 hmin hmax
    obtain ⟨n, en⟩ := getElem?_of_sized t.app_regs_n_elements c add hs.2.1 hmin hmax
    obtain ⟨f, ef⟩ := getElem?_of_sized t.app_func_rd_pointer c add hs.2.2.1 hmin hmax
    obtain ⟨g, eg⟩ := getElem?_of_sized t.app_func_wr_pointer c add hs.2.2.2 hmin hmax
    have hne : ty ≠ type := fun h => hty (by rw [ety, h])
    rw [read_in_range c t add type s ty f hmin hmax ety ef,
      write_in_range c t add type content n_elements s ty n g hmin hmax ety en eg,
      if_pos hne, if_pos hne]
    exact ⟨rfl, rfl⟩
  · obtain ⟨ty, ety⟩ := getElem?_of_sized t.app_regs_type c add hs.1 hmin hmax
    obtain ⟨n, en⟩ := getElem?_of_sized t.app_regs_n_elements c add hs.2.1 hmin hmax
    obtain ⟨g, eg⟩ := getElem?_of_sized t.app_func_wr_pointer c add hs.2.2.2 hmin hmax
    have hne : n ≠ n_elements := fun h => hn (by rw [en, h])
    rw [write_in_range c t add type content n_elements s ty n g hmin hmax ety en eg, if_pos hne]
    split_ifs <;> rfl

/-- Witness for C1: address 47 is above the range 32 .. 46 of `sampleConsts`,
and a write to address 34 with the registered type 3 and the wrong element
count 2 is rejected. -/
theorem dispatch_rejects_witness :
    (47 < sampleConsts.APP_REGS_ADD_MIN ∨ 47 > sampleConsts.APP_REGS_ADD_MAX) ∧
    core_read_app_register sampleConsts sampleTables 47 1 zeroState =
      some ⟨false, zeroState, []⟩ ∧
    sampleTables.Sized sampleConsts ∧
    sampleConsts.APP_REGS_ADD_MIN ≤ 34 ∧ 34 ≤ sampleConsts.APP_REGS_ADD_MAX ∧
    sampleTables.app_regs_n_elements[34 - sampleConsts.APP_REGS_ADD_MIN]? ≠ some 2 ∧
    core_write_app_register sampleConsts sampleTables 34 3 [1] 2 zeroState =
      some ⟨false, zeroState, []⟩ :=
  ⟨by decide,
    ((dispatch_rejects sampleConsts sampleTables 47 1 [] 0 zeroState).1 (by decide)).1,
    by decide, by decide, by decide, by decide,
    (dispatch_rejects sampleConsts sampleTables 34 3 [1] 2 zeroState).2.2.2
      (by decide) (by decide) (by decide) (by decide)⟩

/-- C2: with tables of one entry per address, `core_read_app_register` returns
true exactly when the address is in range and the registered type equals the
claimed one, and then it has called the read handler registered at that
address once, and nothing else; `core_write_app_register`, when in addition the
registered element count equals the claimed one, calls the write handler
registered at that address once with the payload and returns its result, so it
returns true exactly when the three checks pass and the handler accepts. -/
theorem dispatch_success (c : Consts) (t : Tables) (add type : Nat) (content : List Nat)
    (n_elements : Nat) (s : State) (hs : t.Sized c) :
    (∃ o, core_read_app_register c t add type s = some o ∧
      (o.ret = true ↔ (c.APP_REGS_ADD_MIN ≤ add ∧ add ≤ c.APP_REGS_ADD_MAX ∧
        t.app_regs_type[add - c.APP_REGS_ADD_MIN]? = some type))) ∧
    (c.APP_REGS_ADD_MIN ≤ add → add ≤ c.APP_REGS_ADD_MAX →
      t.app_regs_type[add - c.APP_REGS_ADD_MIN]? = some type →
      ∃ f, t.app_func_rd_pointer[add - c.APP_REGS_ADD_MIN]? = some f ∧
        core_read_app_register c t add type s =
          some ⟨true, f s, [Call.rd (add - c.APP_REGS_ADD_MIN)]⟩) ∧
    (c.APP_REGS_ADD_MIN ≤ add → add ≤ c.APP_REGS_ADD_MAX →
      t.app_regs_type[add - c.APP_REGS_ADD_MIN]? = some type →
      t.app_regs_n_elements[add - c.APP_REGS_ADD_MIN]? = some n_elements →
      ∃ g, t.app_func_wr_pointer[add - c.APP_REGS_ADD_MIN]? = some g ∧
        core_write_app_register c t add type content n_elements s =
          some ⟨(g content s).1, (g content s).2,
            [Call.wr (add - c.APP_REGS_ADD_MIN) content]⟩) ∧
    (∃ o, core_write_app_register c t add type content n_elements s = some o ∧
      (o.ret = true ↔ (c.APP_REGS_ADD_MIN ≤ add ∧ add ≤ c.APP_REGS_ADD_MAX ∧
        t.app_regs_type[add - c.APP_REGS_ADD_MIN]? = some type ∧
        t.app_regs_n_elements[add - c.APP_REGS_ADD_MIN]? = some n_elements ∧
        ∃ g, t.app_func_wr_pointer[add - c.APP_REGS_ADD_MIN]? = some g ∧
          (g content s).1 = true))) := by
  by_cases h : add < c.APP_REGS_ADD_MIN ∨ add > c.APP_REGS_ADD_MAX
  · refine ⟨⟨_, read_out_of_range c t add type s h, ?_⟩, fun h1 h2 => by omega,
      fun h1 h2 => by omega, ⟨_, write_out_of_range c t add type content n_elements s h, ?_⟩⟩
    · constructor
      · intro hf
        exact absurd hf (by simp)
      · rintro ⟨h1, h2, -⟩
        omega
    · constructor
      · intro hf
        exact absurd hf (by simp)
      · rintro ⟨h1, h2, -⟩
        omega
  · have hmin : c.APP_REGS_ADD_MIN ≤ add := by omega
    have hmax : add ≤ c.APP_REGS_ADD_MAX := by omega
    obtain ⟨ty, ety⟩ := getElem?_of_sized t.app_regs_type c add hs.1 hmin hmax
    obtain ⟨n, en⟩ := getElem?_of_sized t.app_regs_n_elements c add hs.2.1 hmin hmax
    obtain ⟨f, ef⟩ := getElem?_of_sized t.app_func_rd_pointer c add hs.2.2.1 hmin hmax
    obtain ⟨g, eg⟩ := getElem?_of_sized t.app_func_wr_pointer c add hs.2.2.2 hmin hmax
    have hr := read_in_range c t add type s ty f hmin hmax ety ef
    have hw := write_in_range c t add type content n_elements s ty n g hmin hmax ety en eg
    rw [ety, en, eg]
    refine ⟨?_, fun _ _ hty => ?_, fun _ _ hty hn => ?_, ?_⟩
    · by_cases hne : ty = type
      · rw [if_neg (not_not.mpr hne)] at hr
        exact ⟨_, hr, by simp [hne, hmin, hmax]⟩
      · rw [if_pos hne] at hr
        exact ⟨_, hr, by simp [hne]⟩
    · have hne : ty = type := Option.some.inj hty
      rw [if_neg (not_not.mpr hne)] at hr
      exact ⟨f, ef, hr⟩
    · have hne : ty = type := Option.some.inj hty
      have hnn : n = n_elements := Option.some.inj hn
      rw [if_neg (not_not.mpr hne), if_neg (not_not.mpr hnn)] at hw
      exact ⟨g, rfl, hw⟩
    · by_cases hne : ty = type
      · by_cases hnn : n = n_elements
        · rw [if_neg (not_not.mpr hne), if_neg (not_not.mpr hnn)] at hw
          refine ⟨_, hw, fun hacc => ⟨hmin, hmax, by rw [hne], by rw [hnn], g, rfl, hacc⟩, ?_⟩
          rintro ⟨-, -, -, -, g2, e, hacc⟩
          cases Option.some.inj e
          exact hacc
        · rw [if_neg (not_not.mpr hne), if_pos hnn] at hw
          refine ⟨_, hw, fun hacc => absurd hacc Bool.false_ne_true, ?_⟩
          rintro ⟨-, -, -, e, -⟩
          exact absurd (Option.some.inj e) hnn
      · rw [if_pos hne] at hw
        refine ⟨_, hw, fun hacc => absurd hacc Bool.false_ne_true, ?_⟩
        rintro ⟨-, -, e, -⟩
        exact absurd (Option.some.inj e) hne

/-- Witness for C2: reading address 33 of `sampleConsts` with its registered
type 2 calls the read handler of index 1, and writing the payload [3] to it
with element count 1 calls the write handler of index 1, which accepts. -/
theorem dispatch_success_witness :
    sampleTables.Sized sampleConsts ∧
    sampleConsts.APP_REGS_ADD_MIN ≤ 33 ∧ 33 ≤ sampleConsts.APP_REGS_ADD_MAX ∧
    sampleTables.app_regs_type[33 - sampleConsts.APP_REGS_ADD_MIN]? = some 2 ∧
    sampleTables.app_regs_n_elements[33 - sampleConsts.APP_REGS_ADD_MIN]? = some 1 ∧
    (∃ g, sampleTables.app_func_wr_pointer[33 - sampleConsts.APP_REGS_ADD_MIN]? = some g ∧
      core_write_app_register sampleConsts sampleTables 33 2 [3] 1 zeroState =
        some ⟨(g [3] zeroState).1, (g [3] zeroState).2,
          [Call.wr (33 - sampleConsts.APP_REGS_ADD_MIN) [3]]⟩) :=
  ⟨by decide, by decide, by decide, by decide, by decide,
    (dispatch_success sampleConsts sampleTables 33 2 [3] 1 zeroState (by decide)).2.2.1
      (by decide) (by decide) (by decide) (by decide)⟩

end InputExpander
